import Mathlib

/-!
Verification of the EDC demo connector core (policy evaluator, contract
negotiation state machine, agreement issuance, transfer state machine).

The definitions below are a shallow embedding of the Python sources:
`shared/policies.py` (PolicyEvaluator and the policy templates),
`shared/models.py` (data model), `provider-connector/contracts.py`
(negotiation handlers and agreement creation), and
`provider-connector/transfers.py` (transfer handlers).

Python runtime values appearing in policy contexts and constraint operands
are modelled by the `Value` type; Python equality and ordering on such
values (including the `TypeError` raised when ordering values of
incompatible types, and the numeric identification of `bool` with `int`)
are modelled by `pyEq` and `pyCmp`.  Fallible Python code is modelled with
`Except`: an uncaught Python exception inside the policy evaluator is an
`Except.error` carrying a `PyError`.
-/

/-- Exceptions that the embedded Python fragments can raise. -/
inductive PyError where
  | typeError
  | attributeError
deriving DecidableEq, Repr

/-- Python runtime values used in policy contexts and constraint operands:
strings, ints, bools, and (possibly nested) lists of such values. -/
inductive Value where
  | vStr : String → Value
  | vInt : Int → Value
  | vBool : Bool → Value
  | vList : List Value → Value

/-- Numeric view of a value: Python treats `bool` as a numeric type with
`True == 1` and `False == 0`, so both `int` and `bool` values have a
numeric content; other values do not. -/
def pyNum : Value → Option Int
  | Value.vInt n => some n
  | Value.vBool b => some (if b then 1 else 0)
  | _ => none

mutual

/-- Python `==` on values: strings compare as strings, lists compare
elementwise, numeric values (int/bool) compare numerically, and any other
cross-type comparison is `False` (never an error). -/
def pyEq : Value → Value → Bool
  | Value.vStr a, Value.vStr b => a == b
  | Value.vList a, Value.vList b => pyEqList a b
  | a, b =>
    match pyNum a, pyNum b with
    | some m, some n => m == n
    | _, _ => false

/-- Python `==` on lists: equal length and elementwise equal. -/
def pyEqList : List Value → List Value → Bool
  | [], [] => true
  | a :: as, b :: bs => pyEq a b && pyEqList as bs
  | _, _ => false

end

mutual

/-- Python ordering on values. Strings compare lexicographically with
strings, numeric values (int/bool) compare numerically, lists compare
lexicographically with lists (skipping `==`-equal prefixes, as CPython
does); every other combination raises `TypeError`. -/
def pyCmp : Value → Value → Except Unit Ordering
  | Value.vStr a, Value.vStr b => Except.ok (compare a b)
  | Value.vList a, Value.vList b => pyCmpList a b
  | a, b =>
    match pyNum a, pyNum b with
    | some m, some n => Except.ok (compare m n)
    | _, _ => Except.error ()

/-- Python ordering on lists: skip the longest common `==`-prefix, then
order the first differing pair (which may raise `TypeError`); if one list
is a prefix of the other, the shorter is smaller. -/
def pyCmpList : List Value → List Value → Except Unit Ordering
  | [], [] => Except.ok Ordering.eq
  | [], _ :: _ => Except.ok Ordering.lt
  | _ :: _, [] => Except.ok Ordering.gt
  | a :: as, b :: bs => if pyEq a b then pyCmpList as bs else pyCmp a b

end

mutual

/-- Predicate describing exactly when Python can order two values without
raising `TypeError`: both numeric (int/bool), both strings, or both lists
whose first `==`-differing elements are themselves orderable. -/
def pyComparable : Value → Value → Bool
  | Value.vStr _, Value.vStr _ => true
  | Value.vList a, Value.vList b => pyComparableList a b
  | a, b => (pyNum a).isSome && (pyNum b).isSome

/-- List case of `pyComparable`. -/
def pyComparableList : List Value → List Value → Bool
  | a :: as, b :: bs => if pyEq a b then pyComparableList as bs else pyComparable a b
  | _, _ => true

end

mutual

/-- Python `repr` of a value, as used by `str()` on containers: strings are
single-quoted, bools render as `True`/`False`. -/
def pyRepr : Value → String
  | Value.vStr s => "\x27" ++ s ++ "\x27"
  | Value.vInt n => toString n
  | Value.vBool b => if b then "True" else "False"
  | Value.vList vs => "[" ++ pyReprList vs ++ "]"

/-- Comma-separated reprs of the elements of a list. -/
def pyReprList : List Value → String
  | [] => ""
  | [v] => pyRepr v
  | v :: vs => pyRepr v ++ ", " ++ pyReprList vs

end

/-- Python ordering with the `TypeError` made explicit: `pyCmp` with its
unit-valued failure tagged as a `PyError.typeError`. -/
def pyOrd (a b : Value) : Except PyError Ordering :=
  (pyCmp a b).mapError fun _ => PyError.typeError

/-- Python `str()` of a value: identity on strings, `repr` otherwise. -/
def pyStr : Value → String
  | Value.vStr s => s
  | v => pyRepr v

/-- Python substring test `needle in hay` on strings. -/
def strContainsSub (hay needle : String) : Bool :=
  hay.toList.tails.any fun t => needle.toList.isPrefixOf t

/-- ASCII uppercasing of one character, modelling Python `str.upper()` on
the ASCII action and operator names used by the policies. -/
def pyUpperChar (c : Char) : Char :=
  if c.isLower then Char.ofNat (c.toNat - 32) else c

/-- ASCII lowercasing of one character, modelling Python `str.lower()`. -/
def pyLowerChar (c : Char) : Char :=
  if c.isUpper then Char.ofNat (c.toNat + 32) else c

/-- Python `str.upper()` (ASCII fragment). -/
def pyUpper (s : String) : String := String.mk (s.data.map pyUpperChar)

/-- Python `str.lower()` (ASCII fragment). -/
def pyLower (s : String) : String := String.mk (s.data.map pyLowerChar)

mutual

theorem pyCmp_isOk_eq_comparable :
    (a b : Value) → (pyCmp a b).isOk = pyComparable a b
  | Value.vStr _, Value.vStr _ => by simp [pyCmp, pyComparable, Except.isOk, Except.toBool]
  | Value.vList a, Value.vList b => by
      simp only [pyCmp, pyComparable]
      exact pyCmpList_isOk_eq_comparable a b
  | Value.vStr _, Value.vInt _ => by simp [pyCmp, pyComparable, pyNum, Except.isOk, Except.toBool]
  | Value.vStr _, Value.vBool _ => by simp [pyCmp, pyComparable, pyNum, Except.isOk, Except.toBool]
  | Value.vStr _, Value.vList _ => by simp [pyCmp, pyComparable, pyNum, Except.isOk, Except.toBool]
  | Value.vInt _, Value.vStr _ => by simp [pyCmp, pyComparable, pyNum, Except.isOk, Except.toBool]
  | Value.vInt _, Value.vInt _ => by simp [pyCmp, pyComparable, pyNum, Except.isOk, Except.toBool]
  | Value.vInt _, Value.vBool _ => by simp [pyCmp, pyComparable, pyNum, Except.isOk, Except.toBool]
  | Value.vInt _, Value.vList _ => by simp [pyCmp, pyComparable, pyNum, Except.isOk, Except.toBool]
  | Value.vBool _, Value.vStr _ => by simp [pyCmp, pyComparable, pyNum, Except.isOk, Except.toBool]
  | Value.vBool _, Value.vInt _ => by simp [pyCmp, pyComparable, pyNum, Except.isOk, Except.toBool]
  | Value.vBool _, Value.vBool _ => by simp [pyCmp, pyComparable, pyNum, Except.isOk, Except.toBool]
  | Value.vBool _, Value.vList _ => by simp [pyCmp, pyComparable, pyNum, Except.isOk, Except.toBool]
  | Value.vList _, Value.vStr _ => by simp [pyCmp, pyComparable, pyNum, Except.isOk, Except.toBool]
  | Value.vList _, Value.vInt _ => by simp [pyCmp, pyComparable, pyNum, Except.isOk, Except.toBool]
  | Value.vList _, Value.vBool _ => by simp [pyCmp, pyComparable, pyNum, Except.isOk, Except.toBool]

theorem pyCmpList_isOk_eq_comparable :
    (a b : List Value) → (pyCmpList a b).isOk = pyComparableList a b
  | [], [] => by simp [pyCmpList, pyComparableList, Except.isOk, Except.toBool]
  | [], _ :: _ => by simp [pyCmpList, pyComparableList, Except.isOk, Except.toBool]
  | _ :: _, [] => by simp [pyCmpList, pyComparableList, Except.isOk, Except.toBool]
  | a :: as, b :: bs => by
      simp only [pyCmpList, pyComparableList]
      by_cases h : pyEq a b
      · simp [h, pyCmpList_isOk_eq_comparable as bs]
      · simp [h, pyCmp_isOk_eq_comparable a b]

end

/-! ## Policy data model (shared/models.py) -/

/-- Policy constraint for access control (`Constraint` in shared/models.py):
a context key, an operator name, and a right operand value. -/
structure Constraint where
  left_operand : String
  operator : String
  right_operand : Value

/-- Permission granted by a policy (`Permission` in shared/models.py). -/
structure Permission where
  action : String
  constraints : List Constraint

/-- Prohibition defined by a policy (`Prohibition` in shared/models.py). -/
structure Prohibition where
  action : String
  constraints : List Constraint

/-- ODRL-based policy (`Policy` in shared/models.py). Obligations are
informational in the demo and never read by the evaluator; they are modelled
as a bare count of entries. -/
structure Policy where
  id : String
  permissions : List Permission
  prohibitions : List Prohibition
  obligations : List Unit

/-- Evaluation context: the Python `dict` of requesting-party attributes,
modelled as an association list from attribute name to value with first
binding winning (Python dict keys are unique). -/
def Ctx := List (String × Value)

/-- Python `dict.get(key)` on a context: `None` when the key is absent. -/
def ctxGet (ctx : Ctx) (key : String) : Option Value :=
  match ctx with
  | [] => none
  | (k, v) :: rest => if k == key then some v else ctxGet rest key

/-- Record of one evaluated constraint, as built by
`PolicyEvaluator._evaluate_constraints`: the f-string description, the
observed context value (with the string `"NOT_PROVIDED"` standing for a
missing key), and the boolean outcome. -/
structure ConstraintRecord where
  constraint : String
  context_value : Value
  satisfied : Bool

/-- Result of policy evaluation (`PolicyEvaluationResult` in
shared/models.py). -/
structure PolicyEvaluationResult where
  allowed : Bool
  reason : String
  evaluated_constraints : List ConstraintRecord

/-! ## Policy evaluator (shared/policies.py, class PolicyEvaluator) -/

/-- Embedding of `PolicyEvaluator._evaluate_single_constraint`: looks up the
left operand in the context (missing key short-circuits to `False`), then
dispatches on the lowercased operator name.  Ordered comparisons delegate to
`pyCmp` and therefore propagate Python `TypeError` on unordered operand
types; `contains` on a non-list left operand performs a substring test that
raises `TypeError` when the right operand is not a string; `has_any` builds
sets from both lists, raising `TypeError` when either list contains an
unhashable (list) element. -/
def evalSingleConstraint (c : Constraint) (ctx : Ctx) : Except PyError Bool :=
  let right := c.right_operand
  let op := pyLower c.operator
  match ctxGet ctx c.left_operand with
  | none => Except.ok false
  | some left =>
    if op == "eq" then Except.ok (pyEq left right)
    else if op == "neq" then Except.ok (!pyEq left right)
    else if op == "in" then
      match right with
      | Value.vList rs => Except.ok (rs.any fun r => pyEq left r)
      | _ => Except.ok false
    else if op == "gt" then (pyOrd left right).map (fun o => o == Ordering.gt)
    else if op == "lt" then (pyOrd left right).map (fun o => o == Ordering.lt)
    else if op == "gte" then (pyOrd left right).map (fun o => o != Ordering.lt)
    else if op == "lte" then (pyOrd left right).map (fun o => o != Ordering.gt)
    else if op == "contains" then
      match left with
      | Value.vList ls => Except.ok (ls.any fun l => pyEq right l)
      | _ =>
        match right with
        | Value.vStr s => Except.ok (strContainsSub (pyStr left) s)
        | _ => Except.error PyError.typeError
    else if op == "has_any" then
      match left, right with
      | Value.vList ls, Value.vList rs =>
        if ls.any (fun l => match l with | Value.vList _ => true | _ => false)
            || rs.any (fun r => match r with | Value.vList _ => true | _ => false) then
          Except.error PyError.typeError
        else
          Except.ok (ls.any fun l => rs.any fun r => pyEq l r)
      | _, _ => Except.ok false
    else Except.ok false

/-- The f-string `f"{left_operand} {operator} {right_operand}"` used as the
constraint description in evaluation records. -/
def constraintDescr (c : Constraint) : String :=
  c.left_operand ++ " " ++ c.operator ++ " " ++ pyStr c.right_operand

/-- The record `_evaluate_constraints` appends for one constraint with
outcome `sat`. -/
def mkRecord (c : Constraint) (ctx : Ctx) (sat : Bool) : ConstraintRecord :=
  ⟨constraintDescr c, (ctxGet ctx c.left_operand).getD (Value.vStr "NOT_PROVIDED"), sat⟩

/-- Embedding of `PolicyEvaluator._evaluate_constraints`: evaluate each
constraint in order, recording description, observed context value, and
outcome; an exception raised by any single evaluation propagates. -/
def evalConstraints (cs : List Constraint) (ctx : Ctx) :
    Except PyError (List ConstraintRecord) :=
  match cs with
  | [] => Except.ok []
  | c :: rest =>
    match evalSingleConstraint c ctx with
    | Except.error e => Except.error e
    | Except.ok sat =>
      match evalConstraints rest ctx with
      | Except.error e => Except.error e
      | Except.ok tail => Except.ok (mkRecord c ctx sat :: tail)

/-- The request action as read by `context.get("action", "USE")`. -/
def ctxActionValue (ctx : Ctx) : Value :=
  (ctxGet ctx "action").getD (Value.vStr "USE")

/-- Embedding of `PolicyEvaluator._action_matches`: both sides are
uppercased and compared.  Python calls `.upper()` on the request action, so
a non-string action value raises `AttributeError`. -/
def actionMatches (policyAction : String) (requestAction : Value) : Except PyError Bool :=
  match requestAction with
  | Value.vStr s => Except.ok (pyUpper policyAction == pyUpper s)
  | _ => Except.error PyError.attributeError

/-- The reason string `f"Action \x27{action}\x27 is prohibited"`. -/
def prohibitedReason (action : String) : String :=
  "Action \x27" ++ action ++ "\x27 is prohibited"

/-- Prohibition loop of `PolicyEvaluator.evaluate` (lines 38-47): scan
prohibitions in order, accumulating constraint records of matching but not
fully satisfied prohibitions; a matching prohibition whose constraints are
all satisfied (in particular one with no constraints) stops evaluation with
a deny result carrying only that prohibition's records.  Returns `inl` for
an immediate deny and `inr` with the accumulated records otherwise. -/
def evalProhibitions (ctx : Ctx) :
    List Prohibition → List ConstraintRecord →
    Except PyError (PolicyEvaluationResult ⊕ List ConstraintRecord)
  | [], acc => Except.ok (Sum.inr acc)
  | p :: ps, acc =>
    match actionMatches p.action (ctxActionValue ctx) with
    | Except.error e => Except.error e
    | Except.ok false => evalProhibitions ctx ps acc
    | Except.ok true =>
      match evalConstraints p.constraints ctx with
      | Except.error e => Except.error e
      | Except.ok rs =>
        if rs.all (fun r => r.satisfied) then
          Except.ok (Sum.inl ⟨false, prohibitedReason p.action, rs⟩)
        else
          evalProhibitions ctx ps (acc ++ rs)

/-- Permission loop of `PolicyEvaluator.evaluate` (lines 50-75): scan
permissions in order; a matching permission with no constraints grants
immediately (returning only the records accumulated so far); a matching
permission whose constraints are all satisfied grants with the accumulated
records extended by its own; otherwise its records are accumulated and the
scan continues; if no permission grants, the result is a default deny. -/
def evalPermissions (ctx : Ctx) :
    List Permission → List ConstraintRecord → Except PyError PolicyEvaluationResult
  | [], acc => Except.ok ⟨false, "No matching permission found", acc⟩
  | p :: ps, acc =>
    match actionMatches p.action (ctxActionValue ctx) with
    | Except.error e => Except.error e
    | Except.ok false => evalPermissions ctx ps acc
    | Except.ok true =>
      if p.constraints.isEmpty then
        Except.ok ⟨true, "Permission granted (no constraints)", acc⟩
      else
        match evalConstraints p.constraints ctx with
        | Except.error e => Except.error e
        | Except.ok rs =>
          if rs.all (fun r => r.satisfied) then
            Except.ok ⟨true, "All permission constraints satisfied", acc ++ rs⟩
          else
            evalPermissions ctx ps (acc ++ rs)

/-- Embedding of `PolicyEvaluator.evaluate`: prohibitions first
(deny-overrides-allow), then permissions, then default deny. -/
def evaluate (policy : Policy) (ctx : Ctx) : Except PyError PolicyEvaluationResult :=
  match evalProhibitions ctx policy.prohibitions [] with
  | Except.error e => Except.error e
  | Except.ok (Sum.inl denied) => Except.ok denied
  | Except.ok (Sum.inr acc) => evalPermissions ctx policy.permissions acc

/-! ## Policy templates (shared/policies.py, bottom half) -/

/-- The `TIER1_SUPPLIER_ONLY_POLICY` template. -/
def TIER1_SUPPLIER_ONLY_POLICY : Policy :=
  ⟨"policy-tier1-only",
   [⟨"USE", [⟨"partner_type", "eq", Value.vStr "tier1_supplier"⟩]⟩],
   [⟨"DISTRIBUTE", []⟩],
   []⟩

/-- The `CERTIFIED_PARTNERS_POLICY` template. -/
def CERTIFIED_PARTNERS_POLICY : Policy :=
  ⟨"policy-certified-partners",
   [⟨"USE", [⟨"certification", "has_any",
      Value.vList [Value.vStr "TISAX", Value.vStr "ISO27001"]⟩]⟩],
   [⟨"DISTRIBUTE", []⟩, ⟨"MODIFY", []⟩],
   []⟩

/-- The `EU_REGION_POLICY` template. -/
def EU_REGION_POLICY : Policy :=
  ⟨"policy-eu-region",
   [⟨"USE", [⟨"region", "in", Value.vList [Value.vStr "EU", Value.vStr "EEA"]⟩]⟩],
   [⟨"DISTRIBUTE", []⟩],
   []⟩

/-- The `QUALITY_DATA_POLICY` template. -/
def QUALITY_DATA_POLICY : Policy :=
  ⟨"policy-quality-data",
   [⟨"USE", [⟨"partner_type", "in",
      Value.vList [Value.vStr "tier1_supplier", Value.vStr "tier2_supplier"]⟩,
      ⟨"purpose", "eq", Value.vStr "quality_analysis"⟩]⟩],
   [⟨"DISTRIBUTE", []⟩, ⟨"ARCHIVE", []⟩],
   []⟩

/-- The `TRACEABILITY_POLICY` template. -/
def TRACEABILITY_POLICY : Policy :=
  ⟨"policy-traceability",
   [⟨"USE", [⟨"certification", "contains", Value.vStr "IATF16949"⟩]⟩],
   [],
   []⟩

/-- The `OPEN_ACCESS_POLICY` template: `USE` is permitted with no
constraints; `DISTRIBUTE` is prohibited. -/
def OPEN_ACCESS_POLICY : Policy :=
  ⟨"policy-open-access",
   [⟨"USE", []⟩],
   [⟨"DISTRIBUTE", []⟩],
   []⟩

/-- The `POLICY_TEMPLATES` map from short policy ids to policies. -/
def POLICY_TEMPLATES : List (String × Policy) :=
  [("tier1-only", TIER1_SUPPLIER_ONLY_POLICY),
   ("certified-partners", CERTIFIED_PARTNERS_POLICY),
   ("eu-region", EU_REGION_POLICY),
   ("quality-data", QUALITY_DATA_POLICY),
   ("traceability", TRACEABILITY_POLICY),
   ("open-access", OPEN_ACCESS_POLICY)]

/-- Embedding of `get_policy_description` from shared/policies.py. -/
def get_policy_description (policy : Policy) : String :=
  let permDescs := policy.permissions.map fun perm =>
    if perm.constraints.isEmpty then
      "Allows " ++ perm.action
    else
      "Allows " ++ perm.action ++ " when: " ++
        String.intercalate " AND " (perm.constraints.map constraintDescr)
  let prohibDescs := policy.prohibitions.map fun p => "Prohibits " ++ p.action
  let ds := permDescs ++ prohibDescs
  if ds.isEmpty then "No restrictions" else String.intercalate "; " ds

example :
    evaluate TIER1_SUPPLIER_ONLY_POLICY [("partner_type", Value.vStr "tier1_supplier")] =
      Except.ok ⟨true, "All permission constraints satisfied",
        [⟨"partner_type eq tier1_supplier", Value.vStr "tier1_supplier", true⟩]⟩ := by rfl

example :
    evaluate QUALITY_DATA_POLICY
      [("partner_type", Value.vStr "tier1_supplier"), ("purpose", Value.vStr "cost_reduction")] =
      Except.ok ⟨false, "No matching permission found",
        [⟨"partner_type in [\x27tier1_supplier\x27, \x27tier2_supplier\x27]",
          Value.vStr "tier1_supplier", true⟩,
         ⟨"purpose eq quality_analysis", Value.vStr "cost_reduction", false⟩]⟩ := by rfl

/-! ## Contract negotiation (provider-connector/contracts.py)

The HTTP handlers are embedded as functions on the negotiation record they
operate on.  Generated identifiers (`uuid.uuid4().hex[:8]`-based ids) and
timestamps (`datetime.utcnow().isoformat()`) are passed as parameters.
`HTTPException` raising is modelled with `Except.error`; a handler that
raises before saving leaves the store record untouched, which the embedding
expresses by returning no updated record on the error path. -/

/-- Errors surfaced by the embedded handlers, mirroring the `detail.error`
codes of the raised `HTTPException`s, plus `pyError` for an uncaught Python
exception escaping the policy evaluator (an HTTP 500). -/
inductive ApiError where
  | assetNotFound (id : String)
  | policyNotFound (id : String)
  | invalidState (message : String)
  | agreementNotFound (id : String)
  | agreementNotActive
  | dataNotAvailable
  | pyError (e : PyError)
deriving DecidableEq, Repr

/-- One entry of a negotiation's `state_history` list.  Entries are dicts
with a `state`, `timestamp` and `actor` key and, depending on the
transition, optional `policy_evaluation`, `reason` and `agreement_id`
keys. -/
structure NegHistoryEntry where
  state : String
  timestamp : String
  actor : String
  policy_evaluation : Option String
  reason : Option String
  agreement_id : Option String

/-- The `policy_evaluation` summary stored on a negotiation by the offer
handler (`allowed`, optional `reason`, and the constraint trace). -/
structure NegPolicyEval where
  allowed : Bool
  reason : Option String
  evaluated_constraints : List ConstraintRecord

/-- A negotiation record as stored by the provider connector (the dict
built in `initiate_negotiation`).  States are the literal strings
`"REQUESTED"`, `"OFFERED"`, `"AGREED"`, `"VERIFIED"`, `"FINALIZED"`,
`"TERMINATED"`. -/
structure Negotiation where
  id : String
  state : String
  provider_id : String
  consumer_id : String
  asset_id : String
  policy_id : String
  consumer_attributes : Ctx
  created_at : String
  updated_at : String
  state_history : List NegHistoryEntry
  policy_evaluation : Option NegPolicyEval
  agreement_id : Option String

/-- An asset record from the provider store (`initialize_store` in
provider-connector/store.py).  Only the fields read by the negotiation and
transfer handlers are modelled; `policy_id` and `data_file` are optional
because the handlers access them with `dict.get`. -/
structure Asset where
  id : String
  name : String
  policy_id : Option String
  data_file : Option String

/-- A contract agreement record (the dict built in `finalize_agreement`). -/
structure Agreement where
  id : String
  negotiation_id : String
  asset_id : String
  policy_id : String
  policy_description : String
  provider_id : String
  consumer_id : String
  signing_date : String
  status : String

/-- Request body of `initiate_negotiation` (`NegotiationRequest` in
contracts.py; the unused `callback_address` is omitted). -/
structure NegotiationRequest where
  consumer_id : String
  asset_id : String
  consumer_attributes : Option Ctx

/-- Embedding of `get_asset_by_id` from provider-connector/store.py. -/
def get_asset_by_id (assets : List Asset) (asset_id : String) : Option Asset :=
  match assets with
  | [] => none
  | a :: rest => if a.id == asset_id then some a else get_asset_by_id rest asset_id

/-- The f-string `f"Cannot {verb} in state \x27{state}\x27. Expected
\x27{expected}\x27."` used in `INVALID_STATE` errors. -/
def cannotMsg (verb state expected : String) : String :=
  "Cannot " ++ verb ++ " in state \x27" ++ state ++ "\x27. Expected \x27" ++ expected ++ "\x27."

/-- Embedding of `initiate_negotiation` (contracts.py lines 67-137): looks
up the asset, resolves its policy id with the `"open-access"` default,
checks the policy template exists, and creates a `REQUESTED` negotiation
with a single history entry. -/
def initiate_negotiation (assets : List Asset) (negotiation_id now : String)
    (request : NegotiationRequest) : Except ApiError Negotiation :=
  match get_asset_by_id assets request.asset_id with
  | none => Except.error (ApiError.assetNotFound request.asset_id)
  | some asset =>
    let policy_id := asset.policy_id.getD "open-access"
    match POLICY_TEMPLATES.lookup policy_id with
    | none => Except.error (ApiError.policyNotFound policy_id)
    | some _policy =>
      Except.ok
        ⟨negotiation_id, "REQUESTED", "provider-automotors-oem", request.consumer_id,
         request.asset_id, policy_id, request.consumer_attributes.getD [],
         now, now,
         [⟨"REQUESTED", now, request.consumer_id, none, none, none⟩],
         none, none⟩

/-- Embedding of `provider_offer` (contracts.py lines 177-275).  The
`action?` parameter models the optional request body: `some c` is a body
carrying consumer attributes `c`, `none` is no body (in which case the
negotiation's stored attributes are used).  On a passing policy evaluation
the negotiation moves to `OFFERED`; on a denial it moves to `TERMINATED`;
an exception escaping the evaluator propagates and nothing is saved. -/
def provider_offer (now : String) (action? : Option Ctx) (neg : Negotiation) :
    Except ApiError Negotiation :=
  if neg.state != "REQUESTED" then
    Except.error (ApiError.invalidState (cannotMsg "offer" neg.state "REQUESTED"))
  else
    match POLICY_TEMPLATES.lookup neg.policy_id with
    | none => Except.error (ApiError.pyError PyError.attributeError)
    | some policy =>
      let consumer_attrs := action?.getD neg.consumer_attributes
      match evaluate policy consumer_attrs with
      | Except.error e => Except.error (ApiError.pyError e)
      | Except.ok result =>
        if result.allowed then
          Except.ok
            { neg with
              state := "OFFERED"
              updated_at := now
              state_history := neg.state_history ++
                [⟨"OFFERED", now, "provider-automotors-oem", some "PASSED", none, none⟩]
              policy_evaluation := some ⟨true, none, result.evaluated_constraints⟩ }
        else
          Except.ok
            { neg with
              state := "TERMINATED"
              updated_at := now
              state_history := neg.state_history ++
                [⟨"TERMINATED", now, "provider-automotors-oem", some "FAILED",
                  some result.reason, none⟩]
              policy_evaluation := some ⟨false, some result.reason, result.evaluated_constraints⟩ }

/-- Embedding of `consumer_agree` (contracts.py lines 279-319): requires
state `OFFERED` and moves to `AGREED`. -/
def consumer_agree (now : String) (neg : Negotiation) : Except ApiError Negotiation :=
  if neg.state != "OFFERED" then
    Except.error (ApiError.invalidState (cannotMsg "agree" neg.state "OFFERED"))
  else
    Except.ok
      { neg with
        state := "AGREED"
        updated_at := now
        state_history := neg.state_history ++ [⟨"AGREED", now, neg.consumer_id, none, none, none⟩] }

/-- Embedding of `verify_agreement` (contracts.py lines 322-363): requires
state `AGREED` and moves to `VERIFIED`. -/
def verify_agreement (now : String) (neg : Negotiation) : Except ApiError Negotiation :=
  if neg.state != "AGREED" then
    Except.error (ApiError.invalidState (cannotMsg "verify" neg.state "AGREED"))
  else
    Except.ok
      { neg with
        state := "VERIFIED"
        updated_at := now
        state_history := neg.state_history ++ [⟨"VERIFIED", now, "system", none, none, none⟩] }

/-- Embedding of `finalize_agreement` (contracts.py lines 366-439): requires
state `VERIFIED`; creates one `ACTIVE` agreement whose `negotiation_id` is
the negotiation's id, stores the fresh `agreement_id` on the negotiation,
and moves it to `FINALIZED`. -/
def finalize_agreement (now agreement_id : String) (neg : Negotiation) :
    Except ApiError (Negotiation × Agreement) :=
  if neg.state != "VERIFIED" then
    Except.error (ApiError.invalidState (cannotMsg "finalize" neg.state "VERIFIED"))
  else
    let agreement : Agreement :=
      ⟨agreement_id, neg.id, neg.asset_id, neg.policy_id,
       (match POLICY_TEMPLATES.lookup neg.policy_id with
        | some p => get_policy_description p
        | none => "Unknown"),
       neg.provider_id, neg.consumer_id, now, "ACTIVE"⟩
    Except.ok
      ({ neg with
         state := "FINALIZED"
         updated_at := now
         agreement_id := some agreement_id
         state_history := neg.state_history ++
           [⟨"FINALIZED", now, "system", none, none, some agreement_id⟩] },
       agreement)

/-- Embedding of `terminate_negotiation` (contracts.py lines 443-479):
rejects negotiations already in a final state (`FINALIZED` or
`TERMINATED`), otherwise moves to `TERMINATED`. -/
def terminate_negotiation (now : String) (neg : Negotiation) : Except ApiError Negotiation :=
  if neg.state == "FINALIZED" || neg.state == "TERMINATED" then
    Except.error (ApiError.invalidState
      ("Negotiation already in final state \x27" ++ neg.state ++ "\x27"))
  else
    Except.ok
      { neg with
        state := "TERMINATED"
        updated_at := now
        state_history := neg.state_history ++
          [⟨"TERMINATED", now, "user", none, some "User requested termination", none⟩] }

/-! ## Data transfer (provider-connector/transfers.py) -/

/-- JSON values as loaded by `json.load` in `get_asset_data`
(provider-connector/store.py).  Numbers are modelled as integers, which
covers the sample data; `null` at top level is conflated with a missing
file because `get_asset_data` callers only test truthiness. -/
inductive Json where
  | obj : List (String × Json) → Json
  | arr : List Json → Json
  | str : String → Json
  | num : Int → Json
  | bool : Bool → Json
  | null : Json

/-- Python truthiness of a JSON value (`if not data:` in
`complete_transfer`): empty containers, the empty string, zero, `False`
and `None` are falsy. -/
def Json.truthy : Json → Bool
  | Json.obj kvs => !kvs.isEmpty
  | Json.arr xs => !xs.isEmpty
  | Json.str s => !(s == "")
  | Json.num n => !(n == 0)
  | Json.bool b => b
  | Json.null => false

mutual

/-- Python `str()` of a JSON value (dict/list repr), used for the
`data_size` history field `len(str(data))`. -/
def jsonStr : Json → String
  | Json.obj kvs => "\x7b" ++ jsonStrObj kvs ++ "\x7d"
  | Json.arr xs => "[" ++ jsonStrArr xs ++ "]"
  | Json.str s => "\x27" ++ s ++ "\x27"
  | Json.num n => toString n
  | Json.bool b => if b then "True" else "False"
  | Json.null => "None"

/-- Comma-separated `key: value` reprs of a dict. -/
def jsonStrObj : List (String × Json) → String
  | [] => ""
  | [(k, v)] => "\x27" ++ k ++ "\x27: " ++ jsonStr v
  | (k, v) :: rest => "\x27" ++ k ++ "\x27: " ++ jsonStr v ++ ", " ++ jsonStrObj rest

/-- Comma-separated reprs of a list. -/
def jsonStrArr : List Json → String
  | [] => ""
  | [v] => jsonStr v
  | v :: rest => jsonStr v ++ ", " ++ jsonStrArr rest

end

/-- One entry of a transfer's `state_history` list (these entries carry no
actor; the `COMPLETED` entry additionally records a `data_size`). -/
structure TransferHistoryEntry where
  state : String
  timestamp : String
  data_size : Option Nat

/-- A transfer process record (the dict built in `initiate_transfer`).
States are the literal strings `"REQUESTED"`, `"STARTED"`, `"SUSPENDED"`,
`"COMPLETED"`, `"TERMINATED"`. -/
structure Transfer where
  id : String
  state : String
  agreement_id : String
  asset_id : String
  provider_id : String
  consumer_id : String
  data_destination : Option String
  format : Option String
  created_at : String
  started_at : Option String
  completed_at : Option String
  data : Option Json
  state_history : List TransferHistoryEntry

/-- Request body of `initiate_transfer` (`TransferRequest` in
transfers.py). -/
structure TransferRequest where
  agreement_id : String
  data_destination : Option String
  format : Option String

/-- Embedding of `initiate_transfer` (transfers.py lines 58-120): requires
the referenced agreement to exist (`AGREEMENT_NOT_FOUND`) and to have
status `ACTIVE` (`AGREEMENT_NOT_ACTIVE`); creates a `REQUESTED` transfer
carrying the agreement's asset, provider and consumer ids.  The
`agreements` parameter is the store's agreement lookup. -/
def initiate_transfer (agreements : String → Option Agreement)
    (transfer_id now : String) (request : TransferRequest) : Except ApiError Transfer :=
  match agreements request.agreement_id with
  | none => Except.error (ApiError.agreementNotFound request.agreement_id)
  | some agreement =>
    if agreement.status != "ACTIVE" then
      Except.error ApiError.agreementNotActive
    else
      Except.ok
        ⟨transfer_id, "REQUESTED", request.agreement_id, agreement.asset_id,
         agreement.provider_id, agreement.consumer_id, request.data_destination,
         request.format, now, none, none, none, [⟨"REQUESTED", now, none⟩]⟩

/-- Embedding of `start_transfer` (transfers.py lines 156-195): requires
state `REQUESTED` and moves to `STARTED`, stamping `started_at`. -/
def start_transfer (now : String) (t : Transfer) : Except ApiError Transfer :=
  if t.state != "REQUESTED" then
    Except.error (ApiError.invalidState (cannotMsg "start" t.state "REQUESTED"))
  else
    Except.ok
      { t with
        state := "STARTED"
        started_at := some now
        state_history := t.state_history ++ [⟨"STARTED", now, none⟩] }

/-- Embedding of `complete_transfer` (transfers.py lines 199-262): requires
state `STARTED`; loads the asset data through the store collaborator
(`get_asset_data`, passed as the `assetData` parameter); a missing or
falsy payload raises `DATA_NOT_AVAILABLE` before any mutation; otherwise
the transfer moves to `COMPLETED` with the data attached and
`completed_at` stamped. -/
def complete_transfer (assetData : String → Option Json) (now : String)
    (t : Transfer) : Except ApiError Transfer :=
  if t.state != "STARTED" then
    Except.error (ApiError.invalidState (cannotMsg "complete" t.state "STARTED"))
  else
    match assetData t.asset_id with
    | none => Except.error ApiError.dataNotAvailable
    | some data =>
      if !data.truthy then Except.error ApiError.dataNotAvailable
      else
        Except.ok
          { t with
            state := "COMPLETED"
            completed_at := some now
            data := some data
            state_history := t.state_history ++
              [⟨"COMPLETED", now, some (jsonStr data).length⟩] }

/-- Embedding of `suspend_transfer` (transfers.py lines 306-337): requires
state `STARTED` and moves to `SUSPENDED`. -/
def suspend_transfer (now : String) (t : Transfer) : Except ApiError Transfer :=
  if t.state != "STARTED" then
    Except.error (ApiError.invalidState
      ("Cannot suspend in state \x27" ++ t.state ++ "\x27"))
  else
    Except.ok
      { t with
        state := "SUSPENDED"
        state_history := t.state_history ++ [⟨"SUSPENDED", now, none⟩] }

/-- Embedding of `terminate_transfer` (transfers.py lines 341-372): rejects
transfers already in a final state (`COMPLETED` or `TERMINATED`), otherwise
moves to `TERMINATED`. -/
def terminate_transfer (now : String) (t : Transfer) : Except ApiError Transfer :=
  if t.state == "COMPLETED" || t.state == "TERMINATED" then
    Except.error (ApiError.invalidState
      ("Transfer already in final state \x27" ++ t.state ++ "\x27"))
  else
    Except.ok
      { t with
        state := "TERMINATED"
        state_history := t.state_history ++ [⟨"TERMINATED", now, none⟩] }

/-! ## Provider store and reachable states (provider-connector/store.py)

The global in-memory store keeps negotiations and agreements in dicts keyed
by id; `save_negotiation`/`save_agreement` assign `store[x["id"]] = x`.
`Reachable` describes every store state obtainable from an empty store by a
sequence of negotiation-handler calls, with the uuid-generated ids supplied
as parameters under the freshness assumptions uuid generation provides
(a generated negotiation or agreement id is not already a key). -/

/-- The provider store fragment the negotiation handlers touch: the
`negotiations` and `agreements` dicts, keyed by id. -/
structure ProviderStore where
  negotiations : String → Option Negotiation
  agreements : String → Option Agreement

/-- The store before any handler has run (`initialize_store` starts with
empty `negotiations` and `agreements` dicts). -/
def emptyStore : ProviderStore := ⟨fun _ => none, fun _ => none⟩

/-- Embedding of `save_negotiation`: `store["negotiations"][n["id"]] = n`. -/
def saveNeg (s : ProviderStore) (n : Negotiation) : ProviderStore :=
  { s with negotiations := fun k => if k = n.id then some n else s.negotiations k }

/-- Embedding of `save_agreement`: `store["agreements"][a["id"]] = a`. -/
def saveAgr (s : ProviderStore) (a : Agreement) : ProviderStore :=
  { s with agreements := fun k => if k = a.id then some a else s.agreements k }

/-- Store states reachable by the provider negotiation handlers.  Each
constructor runs one handler on a looked-up record and saves its result;
generated ids carry the freshness facts of `uuid.uuid4` (the new
negotiation id and agreement id are not existing keys). -/
inductive Reachable (assets : List Asset) : ProviderStore → Prop where
  | empty : Reachable assets emptyStore
  | initiate {s : ProviderStore} {nid now : String} {req : NegotiationRequest}
      {n : Negotiation} :
      Reachable assets s →
      s.negotiations nid = none →
      initiate_negotiation assets nid now req = Except.ok n →
      Reachable assets (saveNeg s n)
  | offer {s : ProviderStore} {nid now : String} {act? : Option Ctx}
      {n n2 : Negotiation} :
      Reachable assets s →
      s.negotiations nid = some n →
      provider_offer now act? n = Except.ok n2 →
      Reachable assets (saveNeg s n2)
  | agree {s : ProviderStore} {nid now : String} {n n2 : Negotiation} :
      Reachable assets s →
      s.negotiations nid = some n →
      consumer_agree now n = Except.ok n2 →
      Reachable assets (saveNeg s n2)
  | verify {s : ProviderStore} {nid now : String} {n n2 : Negotiation} :
      Reachable assets s →
      s.negotiations nid = some n →
      verify_agreement now n = Except.ok n2 →
      Reachable assets (saveNeg s n2)
  | finalize {s : ProviderStore} {nid now aid : String} {n n2 : Negotiation}
      {a : Agreement} :
      Reachable assets s →
      s.negotiations nid = some n →
      s.agreements aid = none →
      finalize_agreement now aid n = Except.ok (n2, a) →
      Reachable assets (saveAgr (saveNeg s n2) a)
  | terminate {s : ProviderStore} {nid now : String} {n n2 : Negotiation} :
      Reachable assets s →
      s.negotiations nid = some n →
      terminate_negotiation now n = Except.ok n2 →
      Reachable assets (saveNeg s n2)

/-- Store invariant: every stored negotiation is keyed by its own id, and
every stored agreement is keyed by its own id and points to a `FINALIZED`
negotiation that points back at it through `agreement_id`. -/
def StoreInv (s : ProviderStore) : Prop :=
  (∀ k n, s.negotiations k = some n → n.id = k) ∧
  (∀ k a, s.agreements k = some a → a.id = k ∧
    ∃ n, s.negotiations a.negotiation_id = some n ∧
      n.state = "FINALIZED" ∧ n.agreement_id = some k)

/-! ## Handler facts -/

theorem initiate_ok_facts {assets : List Asset} {nid now : String}
    {req : NegotiationRequest} {n : Negotiation}
    (h : initiate_negotiation assets nid now req = Except.ok n) :
    n.id = nid ∧ n.state = "REQUESTED" ∧ n.agreement_id = none := by
  unfold initiate_negotiation at h
  split at h
  · exact absurd h (by simp)
  · dsimp only at h
    split at h
    · exact absurd h (by simp)
    · simp only [Except.ok.injEq] at h
      subst h
      exact ⟨rfl, rfl, rfl⟩

theorem offer_ok_facts {now : String} {act? : Option Ctx} {n n2 : Negotiation}
    (h : provider_offer now act? n = Except.ok n2) :
    n.state = "REQUESTED" ∧ n2.id = n.id ∧ n2.agreement_id = n.agreement_id ∧
    (n2.state = "OFFERED" ∨ n2.state = "TERMINATED") := by
  unfold provider_offer at h
  split at h
  · exact absurd h (by simp)
  · rename_i hguard
    simp only [Bool.not_eq_true, bne_eq_false_iff_eq] at hguard
    split at h
    · exact absurd h (by simp)
    · dsimp only at h
      split at h
      · exact absurd h (by simp)
      · split at h
        · simp only [Except.ok.injEq] at h
          subst h
          exact ⟨hguard, rfl, rfl, Or.inl rfl⟩
        · simp only [Except.ok.injEq] at h
          subst h
          exact ⟨hguard, rfl, rfl, Or.inr rfl⟩

theorem agree_ok_facts {now : String} {n n2 : Negotiation}
    (h : consumer_agree now n = Except.ok n2) :
    n.state = "OFFERED" ∧ n2.id = n.id ∧ n2.agreement_id = n.agreement_id ∧
    n2.state = "AGREED" := by
  unfold consumer_agree at h
  split at h
  · exact absurd h (by simp)
  · rename_i hguard
    simp only [Bool.not_eq_true, bne_eq_false_iff_eq] at hguard
    simp only [Except.ok.injEq] at h
    subst h
    exact ⟨hguard, rfl, rfl, rfl⟩

theorem verify_ok_facts {now : String} {n n2 : Negotiation}
    (h : verify_agreement now n = Except.ok n2) :
    n.state = "AGREED" ∧ n2.id = n.id ∧ n2.agreement_id = n.agreement_id ∧
    n2.state = "VERIFIED" := by
  unfold verify_agreement at h
  split at h
  · exact absurd h (by simp)
  · rename_i hguard
    simp only [Bool.not_eq_true, bne_eq_false_iff_eq] at hguard
    simp only [Except.ok.injEq] at h
    subst h
    exact ⟨hguard, rfl, rfl, rfl⟩

theorem terminate_ok_facts {now : String} {n n2 : Negotiation}
    (h : terminate_negotiation now n = Except.ok n2) :
    n.state ≠ "FINALIZED" ∧ n.state ≠ "TERMINATED" ∧ n2.id = n.id ∧
    n2.agreement_id = n.agreement_id ∧ n2.state = "TERMINATED" := by
  unfold terminate_negotiation at h
  split at h
  · exact absurd h (by simp)
  · rename_i hguard
    simp only [Bool.not_eq_true, Bool.or_eq_false_iff, beq_eq_false_iff_ne] at hguard
    simp only [Except.ok.injEq] at h
    subst h
    exact ⟨hguard.1, hguard.2, rfl, rfl, rfl⟩

theorem finalize_ok_facts {now aid : String} {n n2 : Negotiation} {a : Agreement}
    (h : finalize_agreement now aid n = Except.ok (n2, a)) :
    n.state = "VERIFIED" ∧ n2.id = n.id ∧ n2.state = "FINALIZED" ∧
    n2.agreement_id = some aid ∧ a.id = aid ∧ a.negotiation_id = n.id ∧
    a.status = "ACTIVE" := by
  unfold finalize_agreement at h
  split at h
  · exact absurd h (by simp)
  · rename_i hguard
    simp only [Bool.not_eq_true, bne_eq_false_iff_eq] at hguard
    simp only [Except.ok.injEq, Prod.mk.injEq] at h
    obtain ⟨h1, h2⟩ := h
    subst h1
    subst h2
    exact ⟨hguard, rfl, rfl, rfl, rfl, rfl, rfl⟩

theorem finalize_ok_iff_verified (now aid : String) (n : Negotiation) :
    (∃ out, finalize_agreement now aid n = Except.ok out) ↔ n.state = "VERIFIED" := by
  constructor
  · rintro ⟨⟨n2, a⟩, h⟩
    exact (finalize_ok_facts h).1
  · intro h
    unfold finalize_agreement
    rw [h]
    exact ⟨_, rfl⟩

theorem saveNeg_preserves_inv {s : ProviderStore} {n n2 : Negotiation}
    (hinv : StoreInv s) (hlook : s.negotiations n.id = some n)
    (hnotfin : n.state ≠ "FINALIZED") (hid : n2.id = n.id) :
    StoreInv (saveNeg s n2) := by
  constructor
  · intro k m hk
    simp only [saveNeg] at hk
    split at hk
    · rename_i hkeq
      cases hk
      exact hkeq.symm
    · exact hinv.1 k m hk
  · intro k a hk
    obtain ⟨haid, m, hm, hmstate, hmag⟩ := hinv.2 k a hk
    refine ⟨haid, m, ?_, hmstate, hmag⟩
    simp only [saveNeg]
    split
    · rename_i hkeq
      rw [hkeq, hid, hlook] at hm
      injection hm with hnm
      rw [hnm] at hnotfin
      exact absurd hmstate hnotfin
    · exact hm

theorem reachable_store_inv {assets : List Asset} {s : ProviderStore}
    (h : Reachable assets s) : StoreInv s := by
  induction h with
  | empty =>
    exact ⟨fun k n hk => by simp [emptyStore] at hk,
           fun k a hk => by simp [emptyStore] at hk⟩
  | initiate hr hfresh hok ih =>
    obtain ⟨hid, hstate, _⟩ := initiate_ok_facts hok
    constructor
    · intro k m hk
      simp only [saveNeg] at hk
      split at hk
      · rename_i hkeq
        cases hk
        exact hkeq.symm
      · exact ih.1 k m hk
    · intro k a hk
      obtain ⟨haid, m, hm, hmstate, hmag⟩ := ih.2 k a hk
      refine ⟨haid, m, ?_, hmstate, hmag⟩
      simp only [saveNeg]
      split
      · rename_i hkeq
        rw [hkeq, hid, hfresh] at hm
        exact absurd hm (by simp)
      · exact hm
  | offer hr hlook hok ih =>
    obtain ⟨hstate, hid, _, _⟩ := offer_ok_facts hok
    have hnid := ih.1 _ _ hlook
    exact saveNeg_preserves_inv ih (by rw [hnid]; exact hlook)
      (by rw [hstate]; decide) hid
  | agree hr hlook hok ih =>
    obtain ⟨hstate, hid, _, _⟩ := agree_ok_facts hok
    have hnid := ih.1 _ _ hlook
    exact saveNeg_preserves_inv ih (by rw [hnid]; exact hlook)
      (by rw [hstate]; decide) hid
  | verify hr hlook hok ih =>
    obtain ⟨hstate, hid, _, _⟩ := verify_ok_facts hok
    have hnid := ih.1 _ _ hlook
    exact saveNeg_preserves_inv ih (by rw [hnid]; exact hlook)
      (by rw [hstate]; decide) hid
  | terminate hr hlook hok ih =>
    obtain ⟨hnf, _, hid, _, _⟩ := terminate_ok_facts hok
    have hnid := ih.1 _ _ hlook
    exact saveNeg_preserves_inv ih (by rw [hnid]; exact hlook) hnf hid
  | finalize hr hlook hfreshA hok ih =>
    rename_i sX nidX nowX aidX nX n2X aX
    obtain ⟨hstate, hid, hfin, hagid, haid, hnegid, hstatus⟩ := finalize_ok_facts hok
    have hnid := ih.1 _ _ hlook
    constructor
    · intro k m hk
      simp only [saveAgr, saveNeg] at hk
      split at hk
      · rename_i hkeq
        cases hk
        exact hkeq.symm
      · exact ih.1 k m hk
    · intro k a0 hk
      simp only [saveAgr] at hk
      split at hk
      · rename_i hkeq
        cases hk
        refine ⟨hkeq.symm, ?_⟩
        refine ⟨n2X, ?_, hfin, ?_⟩
        · simp only [saveAgr, saveNeg]
          rw [hnegid, hid]
          simp
        · rw [hagid, hkeq, haid]
      · obtain ⟨ha0id, m, hm, hmstate, hmag⟩ := ih.2 k a0 hk
        refine ⟨ha0id, m, ?_, hmstate, hmag⟩
        simp only [saveAgr, saveNeg]
        split
        · rename_i hkeq
          rw [hkeq, hid, hnid, hlook] at hm
          injection hm with hnm
          rw [← hnm, hstate] at hmstate
          exact absurd hmstate (by decide)
        · exact hm

/-! ## Evaluation predicates and scan lemmas -/

/-- The rule's action matches the request action of the context (both
uppercased), as `_action_matches` computes it. -/
def MatchesAction (ctx : Ctx) (action : String) : Prop :=
  actionMatches action (ctxActionValue ctx) = Except.ok true

/-- The constraints evaluate without exception and every record is
satisfied; holds vacuously for an empty constraint list. -/
def ConstraintsSatisfied (ctx : Ctx) (cs : List Constraint) : Prop :=
  ∃ rs, evalConstraints cs ctx = Except.ok rs ∧ rs.all (fun r => r.satisfied) = true

/-- The constraints evaluate without raising a Python exception. -/
def ConstraintsEvalOk (ctx : Ctx) (cs : List Constraint) : Prop :=
  ∃ rs, evalConstraints cs ctx = Except.ok rs

theorem matches_action_vStr {ctx : Ctx} {a : String} (h : MatchesAction ctx a) :
    ∃ s, ctxActionValue ctx = Value.vStr s := by
  unfold MatchesAction actionMatches at h
  match hv : ctxActionValue ctx with
  | Value.vStr s => exact ⟨s, rfl⟩
  | Value.vInt _ => rw [hv] at h; exact absurd h (by simp)
  | Value.vBool _ => rw [hv] at h; exact absurd h (by simp)
  | Value.vList _ => rw [hv] at h; exact absurd h (by simp)

theorem actionMatches_of_vStr {ctx : Ctx} {s : String}
    (hv : ctxActionValue ctx = Value.vStr s) (a : String) :
    actionMatches a (ctxActionValue ctx) = Except.ok (pyUpper a == pyUpper s) := by
  rw [hv]; rfl

theorem evalProhibitions_denies (ctx : Ctx) (ps : List Prohibition) :
    ∀ acc : List ConstraintRecord,
    (∃ p, p ∈ ps ∧ MatchesAction ctx p.action ∧ ConstraintsSatisfied ctx p.constraints) →
    (∀ p, p ∈ ps → MatchesAction ctx p.action → ConstraintsEvalOk ctx p.constraints) →
    ∃ r, evalProhibitions ctx ps acc = Except.ok (Sum.inl r) ∧ r.allowed = false ∧
      ∃ p, p ∈ ps ∧ MatchesAction ctx p.action ∧ ConstraintsSatisfied ctx p.constraints ∧
        r.reason = prohibitedReason p.action := by
  induction ps with
  | nil =>
    intro acc hex _
    obtain ⟨p, hp, _⟩ := hex
    exact absurd hp (by simp)
  | cons p ps ih =>
    intro acc hex hok
    obtain ⟨q, hq, hqm, hqs⟩ := hex
    obtain ⟨s, hs⟩ := matches_action_vStr hqm
    unfold evalProhibitions
    rw [actionMatches_of_vStr hs p.action]
    by_cases hm : (pyUpper p.action == pyUpper s) = true
    · rw [hm]
      have hpm : MatchesAction ctx p.action := by
        unfold MatchesAction
        rw [actionMatches_of_vStr hs p.action, hm]
      obtain ⟨rs, hrs⟩ := hok p (by simp) hpm
      rw [hrs]
      dsimp only
      by_cases hsat : rs.all (fun r => r.satisfied) = true
      · rw [if_pos hsat]
        exact ⟨_, rfl, rfl, p, by simp, hpm, ⟨rs, hrs, hsat⟩, rfl⟩
      · rw [if_neg hsat]
        have hqtail : q ∈ ps := by
          rcases List.mem_cons.mp hq with hq1 | hq2
          · subst hq1
            obtain ⟨rs2, hrs2, hsat2⟩ := hqs
            rw [hrs] at hrs2
            injection hrs2 with hrr
            rw [hrr] at hsat
            exact absurd hsat2 hsat
          · exact hq2
        obtain ⟨r, hr, hra, p2, hp2, hp2m, hp2s, hp2r⟩ :=
          ih (acc ++ rs) (⟨q, hqtail, hqm, hqs⟩)
            (fun p2 hp2 => hok p2 (List.mem_cons_of_mem _ hp2))
        exact ⟨r, hr, hra, p2, List.mem_cons_of_mem _ hp2, hp2m, hp2s, hp2r⟩
    · rw [Bool.not_eq_true] at hm
      rw [hm]
      dsimp only
      have hqtail : q ∈ ps := by
        rcases List.mem_cons.mp hq with hq1 | hq2
        · subst hq1
          unfold MatchesAction at hqm
          rw [actionMatches_of_vStr hs q.action, hm] at hqm
          exact absurd hqm (by simp)
        · exact hq2
      obtain ⟨r, hr, hra, p2, hp2, hp2m, hp2s, hp2r⟩ :=
        ih acc (⟨q, hqtail, hqm, hqs⟩) (fun p2 hp2 => hok p2 (List.mem_cons_of_mem _ hp2))
      exact ⟨r, hr, hra, p2, List.mem_cons_of_mem _ hp2, hp2m, hp2s, hp2r⟩

theorem evalProhibitions_passes (ctx : Ctx) (ps : List Prohibition) :
    ∀ acc : List ConstraintRecord,
    (∃ s, ctxActionValue ctx = Value.vStr s) →
    (∀ p, p ∈ ps → MatchesAction ctx p.action → ConstraintsEvalOk ctx p.constraints) →
    (∀ p, p ∈ ps → MatchesAction ctx p.action → ¬ ConstraintsSatisfied ctx p.constraints) →
    ∃ acc2, evalProhibitions ctx ps acc = Except.ok (Sum.inr acc2) ∧
      ∃ extra, acc2 = acc ++ extra := by
  induction ps with
  | nil =>
    intro acc _ _ _
    exact ⟨acc, rfl, [], by simp⟩
  | cons p ps ih =>
    intro acc hstr hok hnosat
    obtain ⟨s, hs⟩ := hstr
    unfold evalProhibitions
    rw [actionMatches_of_vStr hs p.action]
    by_cases hm : (pyUpper p.action == pyUpper s) = true
    · rw [hm]
      dsimp only
      have hpm : MatchesAction ctx p.action := by
        unfold MatchesAction
        rw [actionMatches_of_vStr hs p.action, hm]
      obtain ⟨rs, hrs⟩ := hok p (by simp) hpm
      rw [hrs]
      dsimp only
      have hnsat : ¬ rs.all (fun r => r.satisfied) = true := by
        intro hsat
        exact hnosat p (by simp) hpm ⟨rs, hrs, hsat⟩
      rw [if_neg hnsat]
      obtain ⟨acc2, h2, extra, hx⟩ :=
        ih (acc ++ rs) ⟨s, hs⟩ (fun q hq => hok q (List.mem_cons_of_mem _ hq))
          (fun q hq => hnosat q (List.mem_cons_of_mem _ hq))
      exact ⟨acc2, h2, rs ++ extra, by rw [hx, List.append_assoc]⟩
    · rw [Bool.not_eq_true] at hm
      rw [hm]
      dsimp only
      exact ih acc ⟨s, hs⟩ (fun q hq => hok q (List.mem_cons_of_mem _ hq))
        (fun q hq => hnosat q (List.mem_cons_of_mem _ hq))

theorem evalPermissions_grants (ctx : Ctx) (qs : List Permission) :
    ∀ acc : List ConstraintRecord,
    (∀ q, q ∈ qs → MatchesAction ctx q.action → ConstraintsEvalOk ctx q.constraints) →
    (∃ q, q ∈ qs ∧ MatchesAction ctx q.action ∧
      (q.constraints = [] ∨ ConstraintsSatisfied ctx q.constraints)) →
    ∃ r, evalPermissions ctx qs acc = Except.ok r ∧ r.allowed = true := by
  induction qs with
  | nil =>
    intro acc _ hex
    obtain ⟨q, hq, _⟩ := hex
    exact absurd hq (by simp)
  | cons q qs ih =>
    intro acc hok hex
    obtain ⟨w, hw, hwm, hws⟩ := hex
    obtain ⟨s, hs⟩ := matches_action_vStr hwm
    unfold evalPermissions
    rw [actionMatches_of_vStr hs q.action]
    by_cases hm : (pyUpper q.action == pyUpper s) = true
    · rw [hm]
      dsimp only
      by_cases hempty : q.constraints.isEmpty = true
      · rw [if_pos hempty]
        exact ⟨_, rfl, rfl⟩
      · rw [if_neg hempty]
        have hqm : MatchesAction ctx q.action := by
          unfold MatchesAction
          rw [actionMatches_of_vStr hs q.action, hm]
        obtain ⟨rs, hrs⟩ := hok q (by simp) hqm
        rw [hrs]
        dsimp only
        by_cases hsat : rs.all (fun r => r.satisfied) = true
        · rw [if_pos hsat]
          exact ⟨_, rfl, rfl⟩
        · rw [if_neg hsat]
          have hwtail : w ∈ qs := by
            rcases List.mem_cons.mp hw with h1 | h2
            · subst h1
              rcases hws with hemptyw | hsatw
              · rw [hemptyw] at hempty
                simp at hempty
              · obtain ⟨rs2, hrs2, hsat2⟩ := hsatw
                rw [hrs] at hrs2
                injection hrs2 with h3
                rw [h3] at hsat
                exact absurd hsat2 hsat
            · exact h2
          exact ih (acc ++ rs) (fun u hu => hok u (List.mem_cons_of_mem _ hu))
            ⟨w, hwtail, hwm, hws⟩
    · rw [Bool.not_eq_true] at hm
      rw [hm]
      dsimp only
      have hwtail : w ∈ qs := by
        rcases List.mem_cons.mp hw with h1 | h2
        · subst h1
          unfold MatchesAction at hwm
          rw [actionMatches_of_vStr hs w.action, hm] at hwm
          exact absurd hwm (by simp)
        · exact h2
      exact ih acc (fun u hu => hok u (List.mem_cons_of_mem _ hu)) ⟨w, hwtail, hwm, hws⟩

theorem evalPermissions_denies (ctx : Ctx) (qs : List Permission) :
    ∀ acc : List ConstraintRecord,
    (∃ s, ctxActionValue ctx = Value.vStr s) →
    (∀ q, q ∈ qs → MatchesAction ctx q.action → ConstraintsEvalOk ctx q.constraints) →
    (∀ q, q ∈ qs → MatchesAction ctx q.action →
      q.constraints ≠ [] ∧ ¬ ConstraintsSatisfied ctx q.constraints) →
    ∃ acc2, evalPermissions ctx qs acc =
      Except.ok ⟨false, "No matching permission found", acc2⟩ ∧
      ∃ extra, acc2 = acc ++ extra := by
  induction qs with
  | nil =>
    intro acc _ _ _
    exact ⟨acc, rfl, [], by simp⟩
  | cons q qs ih =>
    intro acc hstr hok hno
    obtain ⟨s, hs⟩ := hstr
    unfold evalPermissions
    rw [actionMatches_of_vStr hs q.action]
    by_cases hm : (pyUpper q.action == pyUpper s) = true
    · rw [hm]
      dsimp only
      have hqm : MatchesAction ctx q.action := by
        unfold MatchesAction
        rw [actionMatches_of_vStr hs q.action, hm]
      obtain ⟨hne, hnsat⟩ := hno q (by simp) hqm
      have hempty : ¬ q.constraints.isEmpty = true := by
        cases hc : q.constraints with
        | nil => exact absurd hc hne
        | cons c cs => simp [hc]
      rw [if_neg hempty]
      obtain ⟨rs, hrs⟩ := hok q (by simp) hqm
      rw [hrs]
      dsimp only
      have hnsat2 : ¬ rs.all (fun r => r.satisfied) = true := by
        intro hsat
        exact hnsat ⟨rs, hrs, hsat⟩
      rw [if_neg hnsat2]
      obtain ⟨acc2, h2, extra, hx⟩ :=
        ih (acc ++ rs) ⟨s, hs⟩ (fun u hu => hok u (List.mem_cons_of_mem _ hu))
          (fun u hu => hno u (List.mem_cons_of_mem _ hu))
      exact ⟨acc2, h2, rs ++ extra, by rw [hx, List.append_assoc]⟩
    · rw [Bool.not_eq_true] at hm
      rw [hm]
      dsimp only
      exact ih acc ⟨s, hs⟩ (fun u hu => hok u (List.mem_cons_of_mem _ hu))
        (fun u hu => hno u (List.mem_cons_of_mem _ hu))

theorem evalConstraints_records (ctx : Ctx) (cs : List Constraint) :
    ∀ rs, evalConstraints cs ctx = Except.ok rs →
    List.Forall₂ (fun c rec =>
      rec.constraint = constraintDescr c ∧
      rec.context_value = (ctxGet ctx c.left_operand).getD (Value.vStr "NOT_PROVIDED") ∧
      evalSingleConstraint c ctx = Except.ok rec.satisfied) cs rs := by
  induction cs with
  | nil =>
    intro rs h
    injection h with h
    rw [← h]
    exact List.Forall₂.nil
  | cons c cs ih =>
    intro rs h
    unfold evalConstraints at h
    cases hsc : evalSingleConstraint c ctx with
    | error e =>
      rw [hsc] at h
      exact absurd h (by simp)
    | ok sat =>
      rw [hsc] at h
      cases hec : evalConstraints cs ctx with
      | error e =>
        rw [hec] at h
        exact absurd h (by simp)
      | ok tail =>
        rw [hec] at h
        injection h with h
        rw [← h]
        exact List.Forall₂.cons ⟨rfl, rfl, hsc⟩ (ih tail hec)

/-! ## Specification-side full-trace evaluator (for the audit-trace claim)

The spec states that the trace returned by `evaluate` records every
constraint checked during the evaluation.  `evaluateSpecTrace` is the
specification-side rendering of that sentence for comparison with the
code: it is identical to `evaluate` except that a prohibition denial also
returns the records accumulated from previously scanned prohibitions
instead of only the denying prohibition's records. -/

/-- Prohibition scan of `evaluateSpecTrace`: as `evalProhibitions`, but a
denial result carries the accumulated records followed by the denying
prohibition's records. -/
def evalProhibitionsSpec (ctx : Ctx) :
    List Prohibition → List ConstraintRecord →
    Except PyError (PolicyEvaluationResult ⊕ List ConstraintRecord)
  | [], acc => Except.ok (Sum.inr acc)
  | p :: ps, acc =>
    match actionMatches p.action (ctxActionValue ctx) with
    | Except.error e => Except.error e
    | Except.ok false => evalProhibitionsSpec ctx ps acc
    | Except.ok true =>
      match evalConstraints p.constraints ctx with
      | Except.error e => Except.error e
      | Except.ok rs =>
        if rs.all (fun r => r.satisfied) then
          Except.ok (Sum.inl ⟨false, prohibitedReason p.action, acc ++ rs⟩)
        else
          evalProhibitionsSpec ctx ps (acc ++ rs)

/-- Full-trace variant of `evaluate` (see the section comment). -/
def evaluateSpecTrace (policy : Policy) (ctx : Ctx) :
    Except PyError PolicyEvaluationResult :=
  match evalProhibitionsSpec ctx policy.prohibitions [] with
  | Except.error e => Except.error e
  | Except.ok (Sum.inl denied) => Except.ok denied
  | Except.ok (Sum.inr acc) => evalPermissions ctx policy.permissions acc

theorem prohibitions_spec_rel (ctx : Ctx) (ps : List Prohibition) :
    ∀ acc : List ConstraintRecord,
    (∀ e, evalProhibitions ctx ps acc = Except.error e →
       evalProhibitionsSpec ctx ps acc = Except.error e) ∧
    (∀ acc2, evalProhibitions ctx ps acc = Except.ok (Sum.inr acc2) →
       evalProhibitionsSpec ctx ps acc = Except.ok (Sum.inr acc2)) ∧
    (∀ r, evalProhibitions ctx ps acc = Except.ok (Sum.inl r) →
       ∃ pre, evalProhibitionsSpec ctx ps acc =
         Except.ok (Sum.inl ⟨r.allowed, r.reason, pre ++ r.evaluated_constraints⟩)) := by
  induction ps with
  | nil =>
    intro acc
    refine ⟨?_, ?_, ?_⟩
    · intro e h
      exact absurd h (by simp [evalProhibitions])
    · intro acc2 h
      simp only [evalProhibitions, Except.ok.injEq, Sum.inr.injEq] at h
      simp [evalProhibitionsSpec, h]
    · intro r h
      simp [evalProhibitions] at h
  | cons p ps ih =>
    intro acc
    unfold evalProhibitions evalProhibitionsSpec
    cases hma : actionMatches p.action (ctxActionValue ctx) with
    | error e =>
      refine ⟨?_, ?_, ?_⟩
      · intro e2 h
        exact h
      · intro acc2 h
        exact absurd h (by simp)
      · intro r h
        exact absurd h (by simp)
    | ok b =>
      cases b with
      | false => exact ih acc
      | true =>
        cases hcs : evalConstraints p.constraints ctx with
        | error e =>
          refine ⟨?_, ?_, ?_⟩
          · intro e2 h
            exact h
          · intro acc2 h
            exact absurd h (by simp)
          · intro r h
            exact absurd h (by simp)
        | ok rs =>
          dsimp only
          by_cases hsat : rs.all (fun r => r.satisfied) = true
          · rw [if_pos hsat, if_pos hsat]
            refine ⟨?_, ?_, ?_⟩
            · intro e2 h
              exact absurd h (by simp)
            · intro acc2 h
              exact absurd h (by simp)
            · intro r h
              simp only [Except.ok.injEq, Sum.inl.injEq] at h
              exact ⟨acc, by rw [← h]⟩
          · rw [if_neg hsat, if_neg hsat]
            exact ih (acc ++ rs)

/-! ## Claim theorems -/

theorem mapOrd_cases (v r : Value) (f : Ordering → Bool) :
    (pyComparable v r = true → ∃ b, (pyOrd v r).map f = Except.ok b) ∧
    (pyComparable v r = false → (pyOrd v r).map f = Except.error PyError.typeError) := by
  have h := pyCmp_isOk_eq_comparable v r
  cases hc : pyCmp v r with
  | ok o =>
    rw [hc] at h
    constructor
    · intro _
      exact ⟨f o, by simp [pyOrd, hc, Except.mapError, Except.map]⟩
    · intro hf
      rw [hf] at h
      simp [Except.isOk, Except.toBool] at h
  | error u =>
    rw [hc] at h
    constructor
    · intro ht
      rw [ht] at h
      simp [Except.isOk, Except.toBool] at h
    · intro _
      simp [pyOrd, hc, Except.mapError, Except.map]

/-- C1 (amended): in `PolicyEvaluator.evaluate`, if some prohibition
case-insensitively matches the request action (defaulting to `USE`) and has
an empty constraint list or all constraints satisfied, and evaluating the
constraints of the matching prohibitions raises no Python exception, then
evaluation returns `allowed=false` with a reason naming a prohibited
action, regardless of any permission in the policy.  (The no-exception
proviso is forced by `c1_counterexample`: a mismatched ordered comparison
in an earlier matching prohibition raises `TypeError` instead.) -/
theorem c1_prohibition_deny_overrides (policy : Policy) (ctx : Ctx)
    (hex : ∃ p, p ∈ policy.prohibitions ∧ MatchesAction ctx p.action ∧
      ConstraintsSatisfied ctx p.constraints)
    (hok : ∀ p, p ∈ policy.prohibitions → MatchesAction ctx p.action →
      ConstraintsEvalOk ctx p.constraints) :
    ∃ r, evaluate policy ctx = Except.ok r ∧ r.allowed = false ∧
      ∃ p, p ∈ policy.prohibitions ∧ MatchesAction ctx p.action ∧
        ConstraintsSatisfied ctx p.constraints ∧
        r.reason = prohibitedReason p.action := by
  obtain ⟨r, hr, hra, hrest⟩ := evalProhibitions_denies ctx policy.prohibitions [] hex hok
  refine ⟨r, ?_, hra, hrest⟩
  unfold evaluate
  rw [hr]

/-- Policy for the C1 witness: a prohibition and a permission both match
`USE`; the prohibition wins. -/
def c1wPolicy : Policy := ⟨"c1w", [⟨"USE", []⟩], [⟨"USE", []⟩], []⟩

theorem c1_witness :
    ∃ r, evaluate c1wPolicy [] = Except.ok r ∧ r.allowed = false ∧
      ∃ p, p ∈ c1wPolicy.prohibitions ∧ MatchesAction [] p.action ∧
        ConstraintsSatisfied [] p.constraints ∧
        r.reason = prohibitedReason p.action :=
  c1_prohibition_deny_overrides c1wPolicy []
    ⟨⟨"USE", []⟩, List.Mem.head _, rfl, ⟨[], rfl, rfl⟩⟩
    (fun p hp _ => by
      rcases List.mem_singleton.mp hp with rfl
      exact ⟨[], rfl⟩)

/-- Policy and context on which claim C1 as stated fails: the second
prohibition matches `USE` and has an empty (hence trivially satisfied)
constraint list, so the claim promises `allowed=false`; but the first
prohibition also matches and its `gt` constraint compares a string context
value with an int, so the Python evaluator raises `TypeError` and
`evaluate` returns no result at all. -/
def c1cPolicy : Policy :=
  ⟨"c1c", [], [⟨"USE", [⟨"mileage", "gt", Value.vInt 100⟩]⟩, ⟨"USE", []⟩], []⟩

/-- Context for `c1_counterexample`. -/
def c1cCtx : Ctx := [("mileage", Value.vStr "high")]

/-- C1 counterexample: see `c1cPolicy`.  The membership, match, and
empty-constraint facts show the claim's hypothesis holds, yet `evaluate`
raises `TypeError` instead of returning `allowed=false`. -/
theorem c1_counterexample :
    (⟨"USE", []⟩ : Prohibition) ∈ c1cPolicy.prohibitions ∧
    actionMatches "USE" (ctxActionValue c1cCtx) = Except.ok true ∧
    evalConstraints [] c1cCtx = Except.ok [] ∧
    evaluate c1cPolicy c1cCtx = Except.error PyError.typeError :=
  ⟨List.Mem.tail _ (List.Mem.head _), rfl, rfl, rfl⟩

/-- C3 (amended): for the ordered operators `gt`, `lt`, `gte`, `lte`, when
the left operand key is present in the context, constraint evaluation
returns a boolean exactly when the context value and the right operand are
of mutually ordered types; on mismatched (unordered) types it raises
`TypeError` — it does not report the constraint unsatisfied.  (The original
claim's `false`-on-mismatch behaviour is refuted by `c3_counterexample`.) -/
theorem c3_ordered_comparison_type_mismatch (c : Constraint) (ctx : Ctx) (v : Value)
    (hop : pyLower c.operator = "gt" ∨ pyLower c.operator = "lt" ∨
      pyLower c.operator = "gte" ∨ pyLower c.operator = "lte")
    (hv : ctxGet ctx c.left_operand = some v) :
    (pyComparable v c.right_operand = true →
      ∃ b, evalSingleConstraint c ctx = Except.ok b) ∧
    (pyComparable v c.right_operand = false →
      evalSingleConstraint c ctx = Except.error PyError.typeError) := by
  rcases hop with h | h | h | h
  · have hred : evalSingleConstraint c ctx =
        (pyOrd v c.right_operand).map (fun o => o == Ordering.gt) := by
      unfold evalSingleConstraint
      rw [hv]
      dsimp only
      rw [h]
      rfl
    rw [hred]
    exact mapOrd_cases v c.right_operand _
  · have hred : evalSingleConstraint c ctx =
        (pyOrd v c.right_operand).map (fun o => o == Ordering.lt) := by
      unfold evalSingleConstraint
      rw [hv]
      dsimp only
      rw [h]
      rfl
    rw [hred]
    exact mapOrd_cases v c.right_operand _
  · have hred : evalSingleConstraint c ctx =
        (pyOrd v c.right_operand).map (fun o => o != Ordering.lt) := by
      unfold evalSingleConstraint
      rw [hv]
      dsimp only
      rw [h]
      rfl
    rw [hred]
    exact mapOrd_cases v c.right_operand _
  · have hred : evalSingleConstraint c ctx =
        (pyOrd v c.right_operand).map (fun o => o != Ordering.gt) := by
      unfold evalSingleConstraint
      rw [hv]
      dsimp only
      rw [h]
      rfl
    rw [hred]
    exact mapOrd_cases v c.right_operand _

theorem c3_witness :
    ∃ b, evalSingleConstraint ⟨"speed", "lt", Value.vInt 10⟩
      [("speed", Value.vInt 5)] = Except.ok b :=
  (c3_ordered_comparison_type_mismatch ⟨"speed", "lt", Value.vInt 10⟩
    [("speed", Value.vInt 5)] (Value.vInt 5)
    (Or.inr (Or.inl rfl)) rfl).1 rfl

/-- C3 counterexample: a `gt` constraint whose right operand is an int,
evaluated in a context where the key holds a string, raises `TypeError`
(propagating out of the evaluator) instead of being reported unsatisfied. -/
theorem c3_counterexample :
    evalSingleConstraint ⟨"mileage", "gt", Value.vInt 100⟩
      [("mileage", Value.vStr "high")] = Except.error PyError.typeError := rfl

/-- C9: `evaluate` is a pure function of the policy and context, so two
calls on identical inputs return identical results — same exception or
same `allowed`, `reason` and constraint trace.  (Non-mutation of policy
and context holds by construction of the embedding: the Python code reads
them only through `dict.get` and attribute access and touches no global
state.) -/
theorem c9_evaluate_deterministic (policy : Policy) (ctx : Ctx)
    (r1 r2 : Except PyError PolicyEvaluationResult)
    (h1 : evaluate policy ctx = r1) (h2 : evaluate policy ctx = r2) :
    r1 = r2 ∧ ∀ a b, r1 = Except.ok a → r2 = Except.ok b →
      a.allowed = b.allowed ∧ a.reason = b.reason ∧
      a.evaluated_constraints = b.evaluated_constraints := by
  have h12 : r1 = r2 := h1.symm.trans h2
  refine ⟨h12, ?_⟩
  intro a b ha hb
  rw [h12, hb] at ha
  injection ha with ha
  rw [ha]
  exact ⟨rfl, rfl, rfl⟩

def c9wResult : Except PyError PolicyEvaluationResult :=
  Except.ok ⟨true, "All permission constraints satisfied",
    [⟨"partner_type eq tier1_supplier", Value.vStr "tier1_supplier", true⟩]⟩

theorem c9_witness :
    c9wResult = c9wResult ∧
    ∀ a b, c9wResult = Except.ok a → c9wResult = Except.ok b →
      a.allowed = b.allowed ∧ a.reason = b.reason ∧
      a.evaluated_constraints = b.evaluated_constraints :=
  c9_evaluate_deterministic TIER1_SUPPLIER_ONLY_POLICY
    [("partner_type", Value.vStr "tier1_supplier")] c9wResult c9wResult rfl rfl

/-- C4 (amended): when no prohibition blocks the request, the permission
scan of `evaluate` behaves as claimed — a matching permission with an
empty constraint list or with all constraints satisfied grants
`allowed=true`, and if no permission grants, the result is `allowed=false`
with reason `"No matching permission found"` — provided the request action
resolves to a string and no scanned constraint evaluation raises a Python
exception.  (The no-exception proviso is forced by `c4_counterexample`;
the code's literal reason string is capitalised.) -/
theorem c4_permission_scan (policy : Policy) (ctx : Ctx)
    (hstr : ∃ s, ctxActionValue ctx = Value.vStr s)
    (hpok : ∀ p, p ∈ policy.prohibitions → MatchesAction ctx p.action →
      ConstraintsEvalOk ctx p.constraints)
    (hnoblock : ∀ p, p ∈ policy.prohibitions → MatchesAction ctx p.action →
      ¬ ConstraintsSatisfied ctx p.constraints)
    (hqok : ∀ q, q ∈ policy.permissions → MatchesAction ctx q.action →
      ConstraintsEvalOk ctx q.constraints) :
    ((∃ q, q ∈ policy.permissions ∧ MatchesAction ctx q.action ∧
        (q.constraints = [] ∨ ConstraintsSatisfied ctx q.constraints)) →
      ∃ r, evaluate policy ctx = Except.ok r ∧ r.allowed = true) ∧
    ((∀ q, q ∈ policy.permissions → MatchesAction ctx q.action →
        q.constraints ≠ [] ∧ ¬ ConstraintsSatisfied ctx q.constraints) →
      ∃ r, evaluate policy ctx = Except.ok r ∧ r.allowed = false ∧
        r.reason = "No matching permission found") := by
  obtain ⟨acc2, hpass, _⟩ :=
    evalProhibitions_passes ctx policy.prohibitions [] hstr hpok hnoblock
  constructor
  · intro hex
    obtain ⟨r, hr, hra⟩ := evalPermissions_grants ctx policy.permissions acc2 hqok hex
    refine ⟨r, ?_, hra⟩
    unfold evaluate
    rw [hpass]
    exact hr
  · intro hno
    obtain ⟨acc3, hden, _⟩ :=
      evalPermissions_denies ctx policy.permissions acc2 hstr hqok hno
    refine ⟨⟨false, "No matching permission found", acc3⟩, ?_, rfl, rfl⟩
    unfold evaluate
    rw [hpass]
    exact hden

theorem c4_witness :
    ∃ r, evaluate TIER1_SUPPLIER_ONLY_POLICY
      [("partner_type", Value.vStr "tier1_supplier")] = Except.ok r ∧
      r.allowed = true :=
  (c4_permission_scan TIER1_SUPPLIER_ONLY_POLICY
    [("partner_type", Value.vStr "tier1_supplier")]
    ⟨"USE", rfl⟩
    (fun p hp hm => by
      rcases List.mem_singleton.mp hp with rfl
      have hfalse : actionMatches "DISTRIBUTE"
          (ctxActionValue [("partner_type", Value.vStr "tier1_supplier")]) =
          Except.ok false := rfl
      unfold MatchesAction at hm
      rw [hfalse] at hm
      exact absurd hm (by simp))
    (fun p hp hm => by
      rcases List.mem_singleton.mp hp with rfl
      have hfalse : actionMatches "DISTRIBUTE"
          (ctxActionValue [("partner_type", Value.vStr "tier1_supplier")]) =
          Except.ok false := rfl
      unfold MatchesAction at hm
      rw [hfalse] at hm
      exact absurd hm (by simp))
    (fun q hq _ => by
      rcases List.mem_singleton.mp hq with rfl
      exact ⟨_, rfl⟩)).1
    ⟨⟨"USE", [⟨"partner_type", "eq", Value.vStr "tier1_supplier"⟩]⟩,
      List.Mem.head _, rfl, Or.inr ⟨_, rfl, rfl⟩⟩

/-- Policy and context on which claim C4 as stated fails: there are no
prohibitions, and the second permission matches `USE` with an empty
constraint list, so the claim promises an immediate grant; but the first
permission also matches and its `gt` constraint compares a string context
value with an int, so the evaluator raises `TypeError` and grants
nothing. -/
def c4cPolicy : Policy :=
  ⟨"c4c", [⟨"USE", [⟨"mileage", "gt", Value.vInt 50⟩]⟩, ⟨"USE", []⟩], [], []⟩

/-- Context for `c4_counterexample`. -/
def c4cCtx : Ctx := [("mileage", Value.vStr "low")]

/-- C4 counterexample: see `c4cPolicy`. -/
theorem c4_counterexample :
    c4cPolicy.prohibitions = [] ∧
    (⟨"USE", []⟩ : Permission) ∈ c4cPolicy.permissions ∧
    actionMatches "USE" (ctxActionValue c4cCtx) = Except.ok true ∧
    evaluate c4cPolicy c4cCtx = Except.error PyError.typeError :=
  ⟨rfl, List.Mem.tail _ (List.Mem.head _), rfl, rfl⟩

/-- C7 (amended): every constraint record produced by
`_evaluate_constraints` carries the constraint description, the observed
context value (or the `"NOT_PROVIDED"` marker), and the boolean result
(first conjunct).  The trace `evaluate` returns is a suffix of the full
trace of all constraints checked (computed by the spec-side
`evaluateSpecTrace`): when no prohibition denies, the returned trace is
exactly the full trace (third conjunct); when a prohibition denies, the
records of earlier matching prohibitions are dropped and only the denying
prohibition's records are returned, so the full trace extends the returned
one by a prefix (second conjunct).  The drop is exhibited by
`c7_counterexample`. -/
theorem c7_trace_recording (policy : Policy) (ctx : Ctx) :
    (∀ cs rs, evalConstraints cs ctx = Except.ok rs →
      List.Forall₂ (fun c rec =>
        rec.constraint = constraintDescr c ∧
        rec.context_value =
          (ctxGet ctx c.left_operand).getD (Value.vStr "NOT_PROVIDED") ∧
        evalSingleConstraint c ctx = Except.ok rec.satisfied) cs rs) ∧
    (∀ r full, evaluate policy ctx = Except.ok r →
      evaluateSpecTrace policy ctx = Except.ok full →
      full.allowed = r.allowed ∧ full.reason = r.reason ∧
      ∃ pre, full.evaluated_constraints = pre ++ r.evaluated_constraints) ∧
    (∀ acc r, evalProhibitions ctx policy.prohibitions [] = Except.ok (Sum.inr acc) →
      evaluate policy ctx = Except.ok r →
      evaluateSpecTrace policy ctx = Except.ok r) := by
  refine ⟨evalConstraints_records ctx, ?_, ?_⟩
  · intro r full hr hfull
    cases hp : evalProhibitions ctx policy.prohibitions [] with
    | error e =>
      unfold evaluate at hr
      rw [hp] at hr
      exact absurd hr (by simp)
    | ok out =>
      cases out with
      | inl denied =>
        unfold evaluate at hr
        rw [hp] at hr
        injection hr with hr
        obtain ⟨pre, hspec⟩ := (prohibitions_spec_rel ctx policy.prohibitions []).2.2 denied hp
        unfold evaluateSpecTrace at hfull
        rw [hspec] at hfull
        injection hfull with hfull
        rw [← hfull, ← hr]
        exact ⟨rfl, rfl, pre, rfl⟩
      | inr acc =>
        have hspec := (prohibitions_spec_rel ctx policy.prohibitions []).2.1 acc hp
        unfold evaluate at hr
        rw [hp] at hr
        unfold evaluateSpecTrace at hfull
        rw [hspec] at hfull
        rw [hr] at hfull
        injection hfull with hfull
        rw [hfull]
        exact ⟨rfl, rfl, [], rfl⟩
  · intro acc r hp hr
    have hspec := (prohibitions_spec_rel ctx policy.prohibitions []).2.1 acc hp
    unfold evaluate at hr
    rw [hp] at hr
    unfold evaluateSpecTrace
    rw [hspec]
    exact hr

/-- Policy for the C7 witness: two prohibitions match `USE`; the first is
unsatisfied, the second satisfied, so the code drops the first record
while the spec-side trace keeps both. -/
def c7wPolicy : Policy :=
  ⟨"c7w", [],
   [⟨"USE", [⟨"region", "eq", Value.vStr "NA"⟩]⟩,
    ⟨"USE", [⟨"region", "eq", Value.vStr "EU"⟩]⟩],
   []⟩

/-- Context for the C7 witness. -/
def c7wCtx : Ctx := [("region", Value.vStr "EU")]

theorem c7_witness :
    (⟨false, prohibitedReason "USE",
        [⟨"region eq NA", Value.vStr "EU", false⟩,
         ⟨"region eq EU", Value.vStr "EU", true⟩]⟩ :
      PolicyEvaluationResult).allowed =
      (⟨false, prohibitedReason "USE",
          [⟨"region eq EU", Value.vStr "EU", true⟩]⟩ :
        PolicyEvaluationResult).allowed ∧
    (⟨false, prohibitedReason "USE",
        [⟨"region eq NA", Value.vStr "EU", false⟩,
         ⟨"region eq EU", Value.vStr "EU", true⟩]⟩ :
      PolicyEvaluationResult).reason =
      (⟨false, prohibitedReason "USE",
          [⟨"region eq EU", Value.vStr "EU", true⟩]⟩ :
        PolicyEvaluationResult).reason ∧
    ∃ pre, (⟨false, prohibitedReason "USE",
        [⟨"region eq NA", Value.vStr "EU", false⟩,
         ⟨"region eq EU", Value.vStr "EU", true⟩]⟩ :
      PolicyEvaluationResult).evaluated_constraints =
      pre ++ (⟨false, prohibitedReason "USE",
          [⟨"region eq EU", Value.vStr "EU", true⟩]⟩ :
        PolicyEvaluationResult).evaluated_constraints :=
  (c7_trace_recording c7wPolicy c7wCtx).2.1
    ⟨false, prohibitedReason "USE", [⟨"region eq EU", Value.vStr "EU", true⟩]⟩
    ⟨false, prohibitedReason "USE",
      [⟨"region eq NA", Value.vStr "EU", false⟩,
       ⟨"region eq EU", Value.vStr "EU", true⟩]⟩
    rfl rfl

/-- Policy on which claim C7 as stated fails: the first prohibition's
constraint is checked (its record is produced by `_evaluate_constraints`),
but the returned trace of the denying evaluation holds only the second
prohibition's record, whose description differs. -/
def c7cPolicy : Policy :=
  ⟨"c7c", [],
   [⟨"USE", [⟨"purpose", "eq", Value.vStr "marketing"⟩]⟩,
    ⟨"USE", [⟨"purpose", "eq", Value.vStr "research"⟩]⟩],
   []⟩

/-- Context for `c7_counterexample`. -/
def c7cCtx : Ctx := [("purpose", Value.vStr "research")]

/-- C7 counterexample: see `c7cPolicy`.  The first conjunct shows the
first prohibition's constraint was checked and produced a record; the
second shows the returned trace holds only the other prohibition's record;
the third shows the two records differ, so a checked record is missing
from the returned trace. -/
theorem c7_counterexample :
    evalConstraints [⟨"purpose", "eq", Value.vStr "marketing"⟩] c7cCtx =
      Except.ok [⟨"purpose eq marketing", Value.vStr "research", false⟩] ∧
    evaluate c7cPolicy c7cCtx = Except.ok ⟨false, prohibitedReason "USE",
      [⟨"purpose eq research", Value.vStr "research", true⟩]⟩ ∧
    ("purpose eq marketing" : String) ≠ "purpose eq research" :=
  ⟨rfl, rfl, by decide⟩

/-- C2: once a negotiation's state is `FINALIZED` or `TERMINATED`, every
transition handler — offer, agree, verify, finalize, terminate — rejects
it with an `INVALID_STATE` error.  In the embedding an `Except.error`
result models the handler raising `HTTPException` before any store write,
so the negotiation's `state` and `state_history` are left unchanged. -/
theorem c2_terminal_negotiation_frozen (neg : Negotiation)
    (h : neg.state = "FINALIZED" ∨ neg.state = "TERMINATED") :
    ∀ (now aid : String) (act? : Option Ctx),
      (∃ m, provider_offer now act? neg = Except.error (ApiError.invalidState m)) ∧
      (∃ m, consumer_agree now neg = Except.error (ApiError.invalidState m)) ∧
      (∃ m, verify_agreement now neg = Except.error (ApiError.invalidState m)) ∧
      (∃ m, finalize_agreement now aid neg = Except.error (ApiError.invalidState m)) ∧
      (∃ m, terminate_negotiation now neg = Except.error (ApiError.invalidState m)) := by
  intro now aid act?
  rcases h with h | h <;>
    exact ⟨⟨_, by unfold provider_offer; rw [h]; rfl⟩,
           ⟨_, by unfold consumer_agree; rw [h]; rfl⟩,
           ⟨_, by unfold verify_agreement; rw [h]; rfl⟩,
           ⟨_, by unfold finalize_agreement; rw [h]; rfl⟩,
           ⟨_, by unfold terminate_negotiation; rw [h]; rfl⟩⟩

/-- Negotiation for the C2 witness: already `FINALIZED`. -/
def c2wNeg : Negotiation :=
  ⟨"n-c2", "FINALIZED", "provider-automotors-oem", "consumer-x", "asset-1",
   "open-access", [], "t0", "t0", [], none, some "agr-0"⟩

theorem c2_witness :
    (∃ m, provider_offer "t1" none c2wNeg = Except.error (ApiError.invalidState m)) ∧
    (∃ m, consumer_agree "t1" c2wNeg = Except.error (ApiError.invalidState m)) ∧
    (∃ m, verify_agreement "t1" c2wNeg = Except.error (ApiError.invalidState m)) ∧
    (∃ m, finalize_agreement "t1" "a1" c2wNeg = Except.error (ApiError.invalidState m)) ∧
    (∃ m, terminate_negotiation "t1" c2wNeg = Except.error (ApiError.invalidState m)) :=
  c2_terminal_negotiation_frozen c2wNeg (Or.inl rfl) "t1" "a1" none

/-- C5: an agreement is created exactly when `finalize_agreement` succeeds.
Conjunct 1: finalize succeeds iff the negotiation is `VERIFIED`.
Conjunct 2: a successful finalize creates one agreement with status
`ACTIVE` whose `negotiation_id` is the negotiation's id, stores the fresh
agreement id on the negotiation, and moves it to `FINALIZED`.
Conjunct 3: in every store reachable by the negotiation handlers, each
agreement points to a `FINALIZED` negotiation that points back at it, and
two agreements for the same negotiation are the same agreement — at most
one agreement ever exists per negotiation. -/
theorem c5_agreement_iff_finalize :
    (∀ (now aid : String) (neg : Negotiation),
      (∃ out, finalize_agreement now aid neg = Except.ok out) ↔
        neg.state = "VERIFIED") ∧
    (∀ (now aid : String) (neg neg2 : Negotiation) (a : Agreement),
      finalize_agreement now aid neg = Except.ok (neg2, a) →
      a.status = "ACTIVE" ∧ a.id = aid ∧ a.negotiation_id = neg.id ∧
      neg2.agreement_id = some aid ∧ neg2.state = "FINALIZED") ∧
    (∀ (assets : List Asset) (s : ProviderStore), Reachable assets s →
      (∀ k a, s.agreements k = some a →
        ∃ n, s.negotiations a.negotiation_id = some n ∧
          n.state = "FINALIZED" ∧ n.agreement_id = some k) ∧
      (∀ k1 k2 a1 a2, s.agreements k1 = some a1 → s.agreements k2 = some a2 →
        a1.negotiation_id = a2.negotiation_id → k1 = k2 ∧ a1 = a2)) := by
  refine ⟨finalize_ok_iff_verified, ?_, ?_⟩
  · intro now aid neg neg2 a h
    obtain ⟨_, _, hfin, hagid, haid, hnegid, hstatus⟩ := finalize_ok_facts h
    exact ⟨hstatus, haid, hnegid, hagid, hfin⟩
  · intro assets s hr
    have hinv := reachable_store_inv hr
    refine ⟨fun k a hk => (hinv.2 k a hk).2, ?_⟩
    intro k1 k2 a1 a2 h1 h2 heq
    obtain ⟨_, n1, hn1, _, hag1⟩ := hinv.2 k1 a1 h1
    obtain ⟨_, n2, hn2, _, hag2⟩ := hinv.2 k2 a2 h2
    rw [heq, hn2] at hn1
    injection hn1 with hnn
    rw [hnn] at hag2
    rw [hag2] at hag1
    injection hag1 with hkk
    subst hkk
    rw [h1] at h2
    injection h2 with haa
    exact ⟨rfl, haa⟩

/-- Asset list for the C5 witness run. -/
def c5wAssets : List Asset := [⟨"asset-c5", "Telemetry", none, some "telemetry.json"⟩]

/-- Negotiation request for the C5 witness run. -/
def c5wReq : NegotiationRequest := ⟨"consumer-c5", "asset-c5", some []⟩

/-- Negotiation after `initiate` in the C5 witness run. -/
def c5wN1 : Negotiation :=
  ⟨"n-c5", "REQUESTED", "provider-automotors-oem", "consumer-c5", "asset-c5",
   "open-access", [], "t0", "t0",
   [⟨"REQUESTED", "t0", "consumer-c5", none, none, none⟩], none, none⟩

/-- Negotiation after `offer` in the C5 witness run. -/
def c5wN2 : Negotiation :=
  ⟨"n-c5", "OFFERED", "provider-automotors-oem", "consumer-c5", "asset-c5",
   "open-access", [], "t0", "t1",
   [⟨"REQUESTED", "t0", "consumer-c5", none, none, none⟩,
    ⟨"OFFERED", "t1", "provider-automotors-oem", some "PASSED", none, none⟩],
   some ⟨true, none, []⟩, none⟩

/-- Negotiation after `agree` in the C5 witness run. -/
def c5wN3 : Negotiation :=
  ⟨"n-c5", "AGREED", "provider-automotors-oem", "consumer-c5", "asset-c5",
   "open-access", [], "t0", "t2",
   [⟨"REQUESTED", "t0", "consumer-c5", none, none, none⟩,
    ⟨"OFFERED", "t1", "provider-automotors-oem", some "PASSED", none, none⟩,
    ⟨"AGREED", "t2", "consumer-c5", none, none, none⟩],
   some ⟨true, none, []⟩, none⟩

/-- Negotiation after `verify` in the C5 witness run. -/
def c5wN4 : Negotiation :=
  ⟨"n-c5", "VERIFIED", "provider-automotors-oem", "consumer-c5", "asset-c5",
   "open-access", [], "t0", "t3",
   [⟨"REQUESTED", "t0", "consumer-c5", none, none, none⟩,
    ⟨"OFFERED", "t1", "provider-automotors-oem", some "PASSED", none, none⟩,
    ⟨"AGREED", "t2", "consumer-c5", none, none, none⟩,
    ⟨"VERIFIED", "t3", "system", none, none, none⟩],
   some ⟨true, none, []⟩, none⟩

/-- Negotiation after `finalize` in the C5 witness run. -/
def c5wN5 : Negotiation :=
  ⟨"n-c5", "FINALIZED", "provider-automotors-oem", "consumer-c5", "asset-c5",
   "open-access", [], "t0", "t4",
   [⟨"REQUESTED", "t0", "consumer-c5", none, none, none⟩,
    ⟨"OFFERED", "t1", "provider-automotors-oem", some "PASSED", none, none⟩,
    ⟨"AGREED", "t2", "consumer-c5", none, none, none⟩,
    ⟨"VERIFIED", "t3", "system", none, none, none⟩,
    ⟨"FINALIZED", "t4", "system", none, none, some "agr-c5"⟩],
   some ⟨true, none, []⟩, some "agr-c5"⟩

/-- Agreement created by `finalize` in the C5 witness run. -/
def c5wAgr : Agreement :=
  ⟨"agr-c5", "n-c5", "asset-c5", "open-access",
   get_policy_description OPEN_ACCESS_POLICY,
   "provider-automotors-oem", "consumer-c5", "t4", "ACTIVE"⟩

/-- Store reached by the full happy-path run in the C5 witness. -/
def c5wStore : ProviderStore :=
  saveAgr (saveNeg (saveNeg (saveNeg (saveNeg (saveNeg emptyStore c5wN1)
    c5wN2) c5wN3) c5wN4) c5wN5) c5wAgr

theorem c5wStore_reachable : Reachable c5wAssets c5wStore :=
  @Reachable.finalize c5wAssets _ "n-c5" "t4" "agr-c5" c5wN4 c5wN5 c5wAgr
    (@Reachable.verify c5wAssets _ "n-c5" "t3" c5wN3 c5wN4
      (@Reachable.agree c5wAssets _ "n-c5" "t2" c5wN2 c5wN3
        (@Reachable.offer c5wAssets _ "n-c5" "t1" none c5wN1 c5wN2
          (@Reachable.initiate c5wAssets emptyStore "n-c5" "t0" c5wReq c5wN1
            Reachable.empty rfl rfl)
          rfl rfl)
        rfl rfl)
      rfl rfl)
    rfl rfl rfl

theorem c5_witness :
    (∃ out, finalize_agreement "t4" "agr-c5" c5wN4 = Except.ok out) ∧
    (c5wAgr.status = "ACTIVE" ∧ c5wAgr.id = "agr-c5" ∧
      c5wAgr.negotiation_id = c5wN4.id ∧
      c5wN5.agreement_id = some "agr-c5" ∧ c5wN5.state = "FINALIZED") ∧
    ("agr-c5" = "agr-c5" ∧ c5wAgr = c5wAgr) :=
  ⟨(c5_agreement_iff_finalize.1 "t4" "agr-c5" c5wN4).mpr rfl,
   c5_agreement_iff_finalize.2.1 "t4" "agr-c5" c5wN4 c5wN5 c5wAgr rfl,
   (c5_agreement_iff_finalize.2.2 c5wAssets c5wStore c5wStore_reachable).2
     "agr-c5" "agr-c5" c5wAgr c5wAgr rfl rfl rfl⟩

/-- C6 (amended): `complete_transfer` on a `STARTED` transfer moves it to
`COMPLETED` with the data attached (hence non-null) and `completedAt`
stamped when the asset data resolves to a truthy (non-empty) value; it
fails with `DATA_NOT_AVAILABLE` both when the data is unresolvable (`None`)
and — refining the claim — when it resolves to a falsy value such as an
empty JSON object (`c6_counterexample`); on any state other than `STARTED`
it fails with `INVALID_STATE`.  An `Except.error` result models the
handler raising before any mutation, so `state`, `data` and
`state_history` are unchanged. -/
theorem c6_complete_transfer_behavior (assetData : String → Option Json)
    (now : String) (t : Transfer) :
    (t.state = "STARTED" →
      (∀ d, assetData t.asset_id = some d → d.truthy = true →
        ∃ t2, complete_transfer assetData now t = Except.ok t2 ∧
          t2.state = "COMPLETED" ∧ t2.data = some d ∧ t2.data ≠ none ∧
          t2.completed_at = some now ∧ t2.state_history =
            t.state_history ++ [⟨"COMPLETED", now, some (jsonStr d).length⟩]) ∧
      (assetData t.asset_id = none →
        complete_transfer assetData now t = Except.error ApiError.dataNotAvailable) ∧
      (∀ d, assetData t.asset_id = some d → d.truthy = false →
        complete_transfer assetData now t = Except.error ApiError.dataNotAvailable)) ∧
    (t.state ≠ "STARTED" →
      ∃ m, complete_transfer assetData now t = Except.error (ApiError.invalidState m)) := by
  constructor
  · intro hst
    refine ⟨?_, ?_, ?_⟩
    · intro d hd htr
      unfold complete_transfer
      rw [hst, hd]
      have hguard : (("STARTED" : String) != "STARTED") = false := rfl
      rw [hguard]
      dsimp only
      rw [htr]
      exact ⟨_, rfl, rfl, rfl, by simp, rfl, rfl⟩
    · intro hd
      unfold complete_transfer
      rw [hst, hd]
      rfl
    · intro d hd htr
      unfold complete_transfer
      rw [hst, hd]
      have hguard : (("STARTED" : String) != "STARTED") = false := rfl
      rw [hguard]
      dsimp only
      rw [htr]
      rfl
  · intro hst
    unfold complete_transfer
    have hguard : (t.state != "STARTED") = true := by
      rw [bne_iff_ne]
      exact hst
    rw [hguard]
    exact ⟨_, rfl⟩

/-- Transfer for the C6 witness, in `STARTED` state. -/
def c6wTransfer : Transfer :=
  ⟨"tr-c6", "STARTED", "agr-c6", "asset-c6", "provider-automotors-oem",
   "consumer-c6", none, some "HTTP_PUSH", "t0", some "t1", none, none,
   [⟨"REQUESTED", "t0", none⟩, ⟨"STARTED", "t1", none⟩]⟩

/-- Asset-data collaborator for the C6 witness: one truthy JSON object. -/
def c6wData : String → Option Json :=
  fun aid => if aid = "asset-c6" then some (Json.obj [("ppm", Json.num 12)]) else none

theorem c6_witness :
    ∃ t2, complete_transfer c6wData "t2" c6wTransfer = Except.ok t2 ∧
      t2.state = "COMPLETED" ∧ t2.data = some (Json.obj [("ppm", Json.num 12)]) ∧
      t2.data ≠ none ∧ t2.completed_at = some "t2" ∧ t2.state_history =
        c6wTransfer.state_history ++
          [⟨"COMPLETED", "t2", some (jsonStr (Json.obj [("ppm", Json.num 12)])).length⟩] :=
  ((c6_complete_transfer_behavior c6wData "t2" c6wTransfer).1 rfl).1
    (Json.obj [("ppm", Json.num 12)]) rfl rfl

/-- Transfer on which claim C6 as stated fails: it is `STARTED` and its
asset's data is resolvable — `get_asset_data` returns an (empty) JSON
object, not `None` — yet `complete_transfer` fails with
`DATA_NOT_AVAILABLE` because Python's `if not data:` treats the empty
object as missing. -/
def c6cTransfer : Transfer :=
  ⟨"tr-c6c", "STARTED", "agr-c6c", "asset-c6c", "provider-automotors-oem",
   "consumer-c6c", none, some "HTTP_PUSH", "t0", some "t1", none, none,
   [⟨"REQUESTED", "t0", none⟩, ⟨"STARTED", "t1", none⟩]⟩

/-- Asset-data collaborator for `c6_counterexample`: resolves to `{}`. -/
def c6cData : String → Option Json := fun _ => some (Json.obj [])

/-- C6 counterexample: see `c6cTransfer`. -/
theorem c6_counterexample :
    c6cData "asset-c6c" = some (Json.obj []) ∧
    complete_transfer c6cData "t2" c6cTransfer =
      Except.error ApiError.dataNotAvailable :=
  ⟨rfl, rfl⟩

/-- C8: `initiate_transfer` fails with `AGREEMENT_NOT_FOUND` when no
agreement with the requested id exists, fails with `AGREEMENT_NOT_ACTIVE`
when the agreement's status is not `ACTIVE`, and otherwise succeeds with a
`REQUESTED` transfer carrying the agreement's `asset_id`, `provider_id`
and `consumer_id`. -/
theorem c8_initiate_transfer_guards (agreements : String → Option Agreement)
    (tid now : String) (req : TransferRequest) :
    (agreements req.agreement_id = none →
      initiate_transfer agreements tid now req =
        Except.error (ApiError.agreementNotFound req.agreement_id)) ∧
    (∀ ag, agreements req.agreement_id = some ag → ag.status ≠ "ACTIVE" →
      initiate_transfer agreements tid now req =
        Except.error ApiError.agreementNotActive) ∧
    (∀ ag, agreements req.agreement_id = some ag → ag.status = "ACTIVE" →
      ∃ t, initiate_transfer agreements tid now req = Except.ok t ∧
        t.state = "REQUESTED" ∧ t.asset_id = ag.asset_id ∧
        t.provider_id = ag.provider_id ∧ t.consumer_id = ag.consumer_id) := by
  refine ⟨?_, ?_, ?_⟩
  · intro h
    unfold initiate_transfer
    rw [h]
  · intro ag hag hst
    unfold initiate_transfer
    rw [hag]
    dsimp only
    have hguard : (ag.status != "ACTIVE") = true := by
      rw [bne_iff_ne]
      exact hst
    rw [hguard]
    rfl
  · intro ag hag hst
    unfold initiate_transfer
    rw [hag]
    dsimp only
    rw [hst]
    have hguard : (("ACTIVE" : String) != "ACTIVE") = false := rfl
    rw [hguard]
    exact ⟨_, rfl, rfl, rfl, rfl, rfl⟩

/-- Agreement lookup for the C8 witness. -/
def c8wAgreements : String → Option Agreement :=
  fun aid => if aid = "agr-c8" then
    some ⟨"agr-c8", "n-c8", "asset-c8", "open-access", "Allows USE",
      "provider-automotors-oem", "consumer-c8", "t4", "ACTIVE"⟩
  else none

theorem c8_witness :
    ∃ t, initiate_transfer c8wAgreements "tr-c8" "t5" ⟨"agr-c8", none, some "HTTP_PUSH"⟩ =
      Except.ok t ∧ t.state = "REQUESTED" ∧ t.asset_id = "asset-c8" ∧
      t.provider_id = "provider-automotors-oem" ∧ t.consumer_id = "consumer-c8" :=
  (c8_initiate_transfer_guards c8wAgreements "tr-c8" "t5"
    ⟨"agr-c8", none, some "HTTP_PUSH"⟩).2.2
    ⟨"agr-c8", "n-c8", "asset-c8", "open-access", "Allows USE",
      "provider-automotors-oem", "consumer-c8", "t4", "ACTIVE"⟩ rfl rfl

theorem open_access_grants_use (ctx : Ctx)
    (h : ctxGet ctx "action" = none ∨
      ∃ s, ctxGet ctx "action" = some (Value.vStr s) ∧ pyUpper s = "USE") :
    evaluate OPEN_ACCESS_POLICY ctx =
      Except.ok ⟨true, "Permission granted (no constraints)", []⟩ := by
  have hact : ∃ s, ctxActionValue ctx = Value.vStr s ∧ pyUpper s = "USE" := by
    rcases h with h | ⟨s, hs, hup⟩
    · exact ⟨"USE", by simp [ctxActionValue, h], rfl⟩
    · exact ⟨s, by simp [ctxActionValue, hs], hup⟩
  obtain ⟨s, hs, hup⟩ := hact
  unfold evaluate OPEN_ACCESS_POLICY
  dsimp only
  unfold evalProhibitions
  rw [actionMatches_of_vStr hs "DISTRIBUTE"]
  rw [show pyUpper "DISTRIBUTE" = "DISTRIBUTE" from rfl, hup]
  rw [show (("DISTRIBUTE" : String) == "USE") = false from rfl]
  dsimp only
  unfold evalProhibitions
  dsimp only
  unfold evalPermissions
  rw [actionMatches_of_vStr hs "USE"]
  rw [show pyUpper "USE" = "USE" from rfl, hup]
  rw [show (("USE" : String) == "USE") = true from rfl]
  rfl

/-- C10: an asset record with no `policy_id` field silently binds the
`"open-access"` policy template rather than failing — `initiate_negotiation`
succeeds and stores `policy_id = "open-access"` (first conjunct); the
open-access template grants a `USE` request unconditionally, for any
context whose action key is absent or uppercases to `USE` (second
conjunct); and a subsequent `offer` on such a negotiation therefore always
moves it to `OFFERED` (third conjunct).  The spec never states this
default. -/
theorem c10_open_access_default :
    (∀ (assets : List Asset) (nid now : String) (req : NegotiationRequest)
        (asset : Asset),
      get_asset_by_id assets req.asset_id = some asset → asset.policy_id = none →
      ∃ n, initiate_negotiation assets nid now req = Except.ok n ∧
        n.policy_id = "open-access" ∧ n.state = "REQUESTED") ∧
    (∀ ctx : Ctx,
      (ctxGet ctx "action" = none ∨
        ∃ s, ctxGet ctx "action" = some (Value.vStr s) ∧ pyUpper s = "USE") →
      evaluate OPEN_ACCESS_POLICY ctx =
        Except.ok ⟨true, "Permission granted (no constraints)", []⟩) ∧
    (∀ (now : String) (act? : Option Ctx) (neg : Negotiation),
      neg.state = "REQUESTED" → neg.policy_id = "open-access" →
      (ctxGet (act?.getD neg.consumer_attributes) "action" = none ∨
        ∃ s, ctxGet (act?.getD neg.consumer_attributes) "action" =
          some (Value.vStr s) ∧ pyUpper s = "USE") →
      ∃ n2, provider_offer now act? neg = Except.ok n2 ∧ n2.state = "OFFERED") := by
  refine ⟨?_, open_access_grants_use, ?_⟩
  · intro assets nid now req asset hass hpid
    unfold initiate_negotiation
    rw [hass]
    dsimp only
    rw [hpid]
    exact ⟨_, rfl, rfl, rfl⟩
  · intro now act? neg hst hpid hact
    unfold provider_offer
    rw [hst]
    rw [show (("REQUESTED" : String) != "REQUESTED") = false from rfl]
    dsimp only
    rw [hpid]
    rw [show POLICY_TEMPLATES.lookup "open-access" = some OPEN_ACCESS_POLICY from rfl]
    dsimp only
    rw [open_access_grants_use (act?.getD neg.consumer_attributes) hact]
    exact ⟨_, rfl, rfl⟩

/-- Asset without a `policy_id` field, for the C10 witness. -/
def c10wAssets : List Asset := [⟨"asset-c10", "Open data", none, some "d.json"⟩]

/-- Negotiation for the C10 witness offer step. -/
def c10wNeg : Negotiation :=
  ⟨"n-c10", "REQUESTED", "provider-automotors-oem", "consumer-c10", "asset-c10",
   "open-access", [("partner_type", Value.vStr "unknown")], "t0", "t0",
   [⟨"REQUESTED", "t0", "consumer-c10", none, none, none⟩], none, none⟩

theorem c10_witness :
    (∃ n, initiate_negotiation c10wAssets "n-c10" "t0" ⟨"consumer-c10", "asset-c10", none⟩ =
      Except.ok n ∧ n.policy_id = "open-access" ∧ n.state = "REQUESTED") ∧
    evaluate OPEN_ACCESS_POLICY [("partner_type", Value.vStr "unknown")] =
      Except.ok ⟨true, "Permission granted (no constraints)", []⟩ ∧
    ∃ n2, provider_offer "t1" none c10wNeg = Except.ok n2 ∧ n2.state = "OFFERED" :=
  ⟨c10_open_access_default.1 c10wAssets "n-c10" "t0" ⟨"consumer-c10", "asset-c10", none⟩
    ⟨"asset-c10", "Open data", none, some "d.json"⟩ rfl rfl,
   c10_open_access_default.2.1 [("partner_type", Value.vStr "unknown")] (Or.inl rfl),
   c10_open_access_default.2.2 "t1" none c10wNeg rfl rfl (Or.inl rfl)⟩
